import Mathlib

/-!
Verification development for the Kenwood TM-D710G / TM-V71A CAT controller
(`cat710.py`, `common710.py`, `xmlrpc710.py`).

Python strings are embedded as `List Char` (named `Str` below); Python tuples
and lists of strings become `List Str`.  Failed radio exchanges
(`handle_query` returning `[]`) are modelled by the empty list, and Python
exceptions (IndexError / KeyError / ValueError) are modelled by explicit
error outcomes.  Floats that only ever carry exact decimal values
(frequencies in MHz) are modelled as rationals; the points where CPython
float semantics could diverge from the rational model are noted next to the
relevant definitions.
-/

namespace Kenwood

/-- Python strings are embedded as lists of characters. -/
abbrev Str := List Char

/-- Helper turning a Lean string literal into the embedding type. -/
def S (s : String) : Str := s.toList

/-! ### Decimal parsing and formatting

Models Python `int(...)` on decimal strings and the format specifications
`"{:010d}"` and `"{:.3f}"` used by `cat710.py`. -/

/-- Numeric value of a decimal digit character. -/
def digitVal (c : Char) : Nat := c.toNat - 48

/-- Character for a single decimal digit (only used with arguments < 10). -/
def digitChar (n : Nat) : Char :=
  match n with
  | 0 => '0' | 1 => '1' | 2 => '2' | 3 => '3' | 4 => '4'
  | 5 => '5' | 6 => '6' | 7 => '7' | 8 => '8' | _ => '9'

/-- Value of a digit string read left to right. -/
def decValue (cs : Str) : Nat := cs.foldl (fun a c => 10 * a + digitVal c) 0

/-- Python `int(s)` on a non-negative decimal string: defined exactly on
non-empty all-digit strings (leading zeros allowed), `none` models the
`ValueError` raised otherwise. -/
def pyNat? (cs : Str) : Option Nat :=
  if cs ≠ [] ∧ cs.all Char.isDigit then some (decValue cs) else none

/-- Python `int(s)` on a possibly negative decimal string. -/
def pyInt? (cs : Str) : Option Int :=
  match cs with
  | [] => none
  | c :: rest =>
    if c = '-' then
      match pyNat? rest with
      | some n => some (-(n : Int))
      | none => none
    else
      match pyNat? (c :: rest) with
      | some n => some ((n : Int))
      | none => none

/-- Fuel-driven digit expansion (structural recursion so that concrete
values reduce inside the kernel); correct whenever `n ≤ fuel`. -/
def natToDigitsAux : Nat → Nat → Str
  | 0, n => [digitChar n]
  | fuel + 1, n =>
    if n < 10 then [digitChar n]
    else natToDigitsAux fuel (n / 10) ++ [digitChar (n % 10)]

/-- Decimal digits of a natural number, most significant first. -/
def natToDigits (n : Nat) : Str := natToDigitsAux n n

/-- Left-pad a digit string with zeros to the given width (Python `{:0wd}`
padding; strings already at least that wide are unchanged). -/
def padZeros (w : Nat) (ds : Str) : Str :=
  List.replicate (w - ds.length) '0' ++ ds

/-- Python `f"{m:0wd}"`: zero-padded decimal of an integer; for negative
numbers the sign counts towards the width. -/
def pyFormatD (w : Nat) (m : Int) : Str :=
  if m < 0 then '-' :: padZeros (w - 1) (natToDigits m.natAbs)
  else padZeros w (natToDigits m.toNat)

/-- Python `int(q)`: truncation of a rational towards zero. -/
def pyTrunc (q : ℚ) : Int :=
  if 0 ≤ q then ((q.num.toNat / q.den : Nat) : Int)
  else -((((-q.num).toNat / q.den : Nat) : Int))

/-- Round `n / 1000` to the nearest integer, ties to even (the rounding used
by CPython `"{:.3f}"` on exact decimal values). -/
def roundHalfEven (n : Nat) : Nat :=
  let q := n / 1000
  let r := n % 1000
  if r < 500 then q else if 500 < r then q + 1
  else if q % 2 = 0 then q else q + 1

/-- Part of `pyFormat3` for a non-negative numerator of Hz. -/
def pyFormat3Aux (n : Nat) : Str :=
  let k := roundHalfEven n
  natToDigits (k / 1000) ++ '.' :: padZeros 3 (natToDigits (k % 1000))

/-- Python `"{:.3f}".format(m / 1000000)` for an integer `m` of Hz, as used
at `cat710.py:490`.  The binary-float intermediate value is modelled by
exact decimal rounding; for the values produced by the radio (multiples of
50 Hz below 1.3 GHz) the two agree, since the float error (relative 2⁻⁵²)
cannot cross a 0.0005 MHz rounding boundary. -/
def pyFormat3 (m : Int) : Str :=
  if m < 0 then '-' :: pyFormat3Aux m.natAbs else pyFormat3Aux m.toNat

/-! #### Round-trip lemmas for the decimal embedding -/

theorem digitChar_isDigit (n : Nat) (h : n < 10) : (digitChar n).isDigit = true := by
  interval_cases n <;> decide

theorem digitVal_digitChar (n : Nat) (h : n < 10) : digitVal (digitChar n) = n := by
  interval_cases n <;> decide

theorem natToDigitsAux_ne_nil (fuel n : Nat) : natToDigitsAux fuel n ≠ [] := by
  cases fuel with
  | zero => simp [natToDigitsAux]
  | succ m =>
    rw [natToDigitsAux]
    split <;> simp

theorem natToDigits_ne_nil (n : Nat) : natToDigits n ≠ [] :=
  natToDigitsAux_ne_nil n n

theorem natToDigitsAux_all_digits (fuel : Nat) : ∀ n, n ≤ fuel →
    (natToDigitsAux fuel n).all Char.isDigit = true := by
  induction fuel with
  | zero =>
    intro n hn
    have : n = 0 := by omega
    subst this
    simp [natToDigitsAux]
    exact digitChar_isDigit 0 (by omega)
  | succ m ih =>
    intro n hn
    rw [natToDigitsAux]
    split
    · rename_i h
      simpa using digitChar_isDigit n (by omega)
    · rename_i h
      have h1 := ih (n / 10) (by omega)
      have h2 := digitChar_isDigit (n % 10) (Nat.mod_lt _ (by omega))
      simp_all [List.all_append]

theorem natToDigits_all_digits (n : Nat) : (natToDigits n).all Char.isDigit = true :=
  natToDigitsAux_all_digits n n le_rfl

theorem decValue_append_digit (xs : Str) (c : Char) :
    decValue (xs ++ [c]) = 10 * decValue xs + digitVal c := by
  simp [decValue, List.foldl_append]

theorem decValue_natToDigitsAux (fuel : Nat) : ∀ n, n ≤ fuel →
    decValue (natToDigitsAux fuel n) = n := by
  induction fuel with
  | zero =>
    intro n hn
    have : n = 0 := by omega
    subst this
    simp [natToDigitsAux, decValue, digitVal_digitChar 0 (by omega)]
  | succ m ih =>
    intro n hn
    rw [natToDigitsAux]
    split
    · rename_i h
      simp [decValue, digitVal_digitChar n (by omega)]
    · rename_i h
      rw [decValue_append_digit, ih (n / 10) (by omega),
        digitVal_digitChar (n % 10) (Nat.mod_lt _ (by omega))]
      omega

theorem decValue_natToDigits (n : Nat) : decValue (natToDigits n) = n :=
  decValue_natToDigitsAux n n le_rfl

theorem decValue_replicate_zero (k : Nat) (ds : Str) :
    decValue (List.replicate k '0' ++ ds) = decValue ds := by
  induction k with
  | zero => simp
  | succ m ih =>
    have : List.replicate (m + 1) '0' ++ ds = '0' :: (List.replicate m '0' ++ ds) := by
      simp [List.replicate_succ]
    rw [this]
    simpa [decValue, digitVal] using ih

theorem pyNat?_padZeros_natToDigits (w n : Nat) :
    pyNat? (padZeros w (natToDigits n)) = some n := by
  have hall : (padZeros w (natToDigits n)).all Char.isDigit = true := by
    simp only [padZeros, List.all_append, Bool.and_eq_true]
    refine ⟨?_, natToDigits_all_digits n⟩
    simp [List.all_eq_true]
  have hne : padZeros w (natToDigits n) ≠ [] := by
    simp only [padZeros]
    intro h
    exact natToDigits_ne_nil n (by simpa using (List.append_eq_nil.mp h).2)
  simp only [pyNat?, ne_eq, hne, not_false_eq_true, hall, and_self, ite_true]
  rw [padZeros, decValue_replicate_zero, decValue_natToDigits]

theorem padZeros_head_digit (w n : Nat) (c : Char) (rest : Str)
    (h : padZeros w (natToDigits n) = c :: rest) : c.isDigit = true := by
  have hall := pyNat?_padZeros_natToDigits w n
  simp only [pyNat?, ne_eq, ite_eq_iff] at hall
  rcases hall with ⟨⟨_, hdig⟩, _⟩ | ⟨_, h2⟩
  · rw [h] at hdig
    simp [List.all_eq_true] at hdig
    exact hdig.1
  · simp at h2

theorem pyInt?_pyFormatD (w : Nat) (m : Int) : pyInt? (pyFormatD w m) = some m := by
  by_cases hm : m < 0
  · simp only [pyFormatD, hm, ite_true, pyInt?, if_pos rfl,
      pyNat?_padZeros_natToDigits]
    have habs : ((m.natAbs : Int)) = -m := Int.ofNat_natAbs_of_nonpos (le_of_lt hm)
    rw [habs, neg_neg]
  · simp only [pyFormatD, hm, ite_false]
    rcases hp : padZeros w (natToDigits m.toNat) with _ | ⟨c, rest⟩
    · exact absurd hp (by
        intro hcon
        have := pyNat?_padZeros_natToDigits w m.toNat
        rw [hcon] at this
        simp [pyNat?] at this)
    · have hc : c.isDigit = true := padZeros_head_digit w m.toNat c rest hp
      have hcm : ¬ c = '-' := by
        intro h
        rw [h] at hc
        simp [Char.isDigit] at hc
      have hrt := pyNat?_padZeros_natToDigits w m.toNat
      rw [hp] at hrt
      simp only [pyInt?, hcm, ite_false, hrt]
      rw [Int.toNat_of_nonneg (by omega)]

/-! ### Transport layer: `Cat.query` and `Cat.handle_query` (`cat710.py:327-385`)

`query` writes `"<command>\r"` on the serial line and decodes the reply line
(including its trailing `'\r'`) by substituting every `' '` with `','`
(`re.sub(' ', ',', ...)`), dropping the final character and splitting on
commas; an empty reply yields the empty tuple and an I/O failure raises
`QueryException`, which `handle_query` turns into `[]`. -/

/-- Python `re.sub(' ', ',', line)`: every space becomes a comma. -/
def subSpaces (line : Str) : Str := line.map (fun c => if c = ' ' then ',' else c)

/-- Python `s.split(',')` on the character list embedding. -/
def splitOnComma : Str → List Str
  | [] => [[]]
  | c :: cs =>
    if c = ',' then [] :: splitOnComma cs
    else
      match splitOnComma cs with
      | [] => [[c]]
      | f :: rest => (c :: f) :: rest

/-- Python `",".join(fields)`. -/
def joinComma : List Str → Str
  | [] => []
  | [f] => f
  | f :: g :: rest => f ++ ',' :: joinComma (g :: rest)

/-- Synthetic reply line `"<opcode> <fields joined by commas>\r"` as described
by the round-trip property. -/
def encodeReply (op : Str) (fields : List Str) : Str :=
  op ++ ' ' :: joinComma fields ++ ['\r']

/-- Decoding step of `Cat.query` applied to one raw reply line (the line
still carries its terminating `'\r'`): substitute spaces, test for an empty
answer, drop the final character and split on commas. -/
def queryDecode (line : Str) : List Str :=
  let answer := subSpaces line
  if answer = [] then [] else splitOnComma answer.dropLast

/-- Outcome of one serial exchange: either the connection failed at the I/O
level or the radio produced a (possibly empty) reply line. -/
inductive TransportOutcome
  | ioError
  | reply (line : Str)

/-- Model of `Cat.query`: an I/O failure raises `QueryException` (the
`Except.error` case); otherwise the reply line is decoded.  The literal `"?"`
reply receives no special treatment. -/
def query : TransportOutcome → Except Unit (List Str)
  | .ioError => .error ()
  | .reply line => .ok (queryDecode line)

/-- Model of `Cat.handle_query`: catches `QueryException` and returns `[]`. -/
def handle_query (o : TransportOutcome) : List Str :=
  match query o with
  | .error _ => []
  | .ok r => r

/-! #### Split / join round-trip lemmas -/

theorem splitOnComma_append_comma (xs ys : Str) (h : ∀ c ∈ xs, c ≠ ',') :
    splitOnComma (xs ++ ',' :: ys) = xs :: splitOnComma ys := by
  induction xs with
  | nil => simp [splitOnComma]
  | cons c cs ih =>
    have hc : c ≠ ',' := h c (by simp)
    have ih2 := ih (fun d hd => h d (by simp [hd]))
    simp only [List.cons_append, splitOnComma, hc, if_neg, ite_false, List.append_eq, ih2]

theorem splitOnComma_no_comma (xs : Str) (h : ∀ c ∈ xs, c ≠ ',') :
    splitOnComma xs = [xs] := by
  induction xs with
  | nil => rfl
  | cons c cs ih =>
    have hc : c ≠ ',' := h c (by simp)
    simp only [splitOnComma, hc, if_neg, ite_false]
    rw [ih (fun d hd => h d (by simp [hd]))]

theorem mem_joinComma (fs : List Str) (c : Char) (h : c ∈ joinComma fs) :
    c = ',' ∨ ∃ f ∈ fs, c ∈ f := by
  induction fs with
  | nil => simp [joinComma] at h
  | cons f rest ih =>
    cases rest with
    | nil =>
      right
      exact ⟨f, by simp, by simpa [joinComma] using h⟩
    | cons g r2 =>
      simp only [joinComma, List.mem_append, List.mem_cons] at h
      rcases h with hf | hc | hrest
      · exact Or.inr ⟨f, by simp, hf⟩
      · exact Or.inl hc
      · rcases ih hrest with h1 | ⟨f2, hf2, hcf2⟩
        · exact Or.inl h1
        · exact Or.inr ⟨f2, by simp [hf2], hcf2⟩

theorem splitOnComma_joinComma (fs : List Str) (hne : fs ≠ [])
    (h : ∀ f ∈ fs, ∀ c ∈ f, c ≠ ',') :
    splitOnComma (joinComma fs) = fs := by
  induction fs with
  | nil => exact absurd rfl hne
  | cons f rest ih =>
    cases rest with
    | nil => exact splitOnComma_no_comma f (h f (by simp))
    | cons g r2 =>
      show splitOnComma (f ++ ',' :: joinComma (g :: r2)) = _
      rw [splitOnComma_append_comma f _ (h f (by simp))]
      rw [ih (by simp) (fun f2 hf2 => h f2 (by simp [hf2]))]

theorem subSpaces_eq_self (xs : Str) (h : ∀ c ∈ xs, c ≠ ' ') : subSpaces xs = xs := by
  induction xs with
  | nil => rfl
  | cons c cs ih =>
    simp only [subSpaces, List.map_cons]
    rw [if_neg (h c (by simp))]
    have := ih (fun d hd => h d (by simp [hd]))
    simp only [subSpaces] at this
    rw [this]

theorem subSpaces_append (xs ys : Str) :
    subSpaces (xs ++ ys) = subSpaces xs ++ subSpaces ys := by
  simp [subSpaces]

/-- Claim C2 counterexample: the field `"A B"` contains a space, and
`re.sub(' ', ',', ...)` replaces every space (not only the separator), so
decoding the encoded reply `"MN 1,A B\r"` yields four fields, not the
original three-element tuple. -/
theorem c2_counterexample :
    queryDecode (encodeReply (S "MN") [S "1", S "A B"]) =
      [S "MN", S "1", S "A", S "B"] ∧
    queryDecode (encodeReply (S "MN") [S "1", S "A B"]) ≠
      [S "MN", S "1", S "A B"] := by
  constructor
  · rfl
  · decide

/-- Claim C2 (amended): encoding a synthetic reply line
`"<opcode> <fields joined by commas>\r"` and decoding it with the decoding
step of `Cat.query` recovers exactly `(opcode, field_0, ..., field_n)`,
provided the field list is non-empty and neither the opcode nor any field
contains a space or a comma.  (The source substitutes every space, so a
field containing a space is split into several fields; see the
counterexample.) -/
theorem c2_encode_decode_round_trip (op : Str) (fields : List Str)
    (hne : fields ≠ [])
    (hop : ∀ c ∈ op, c ≠ ' ' ∧ c ≠ ',')
    (hf : ∀ f ∈ fields, ∀ c ∈ f, c ≠ ' ' ∧ c ≠ ',') :
    queryDecode (encodeReply op fields) = op :: fields := by
  have hbody : ∀ c ∈ joinComma fields, c ≠ ' ' := by
    intro c hc
    rcases mem_joinComma fields c hc with h | ⟨f, hf1, hf2⟩
    · rw [h]
      decide
    · exact (hf f hf1 c hf2).1
  have h1 : subSpaces op = op := subSpaces_eq_self op (fun c hc => (hop c hc).1)
  have h2 : subSpaces (joinComma fields) = joinComma fields :=
    subSpaces_eq_self _ hbody
  have h1m : List.map (fun c => if c = ' ' then ',' else c) op = op := h1
  have h2m : List.map (fun c => if c = ' ' then ',' else c) (joinComma fields)
      = joinComma fields := h2
  have hsub : subSpaces (encodeReply op fields)
      = (op ++ ',' :: joinComma fields) ++ ['\r'] := by
    simp only [encodeReply, subSpaces, List.map_append, List.map_cons, List.map_nil,
      h1m, h2m]
    simp
  simp only [queryDecode, hsub, List.dropLast_concat]
  rw [if_neg (by simp)]
  rw [splitOnComma_append_comma op _ (fun c hc => (hop c hc).2)]
  rw [splitOnComma_joinComma fields hne (fun f hmem c hc => (hf f hmem c hc).2)]

/-- Witness for `c2_encode_decode_round_trip` at the spec's `ID` scenario:
decoding the encoded reply `"ID TM-D710\r"` yields `("ID", "TM-D710")`. -/
theorem c2_encode_decode_round_trip_witness :
    queryDecode (encodeReply (S "ID") [S "TM-D710"]) = [S "ID", S "TM-D710"] :=
  c2_encode_decode_round_trip (S "ID") [S "TM-D710"] (by decide) (by decide)
    (by decide)

/-- Claim C8: a connection-level I/O failure (`QueryException`) and an empty
reply both collapse, through `handle_query`, to the empty result `[]` that
every caller treats as a fatal failure of the in-progress operation (no
caller retries), while the radio's unsupported-command reply — the literal
`"?"` line — is not specially interpreted by `query`: it is returned as an
ordinary decoded tuple whose field 0 is `"?"`, distinct from the failure
sentinel. -/
theorem c8_transport_error_and_question_mark :
    handle_query .ioError = [] ∧
    handle_query (.reply []) = [] ∧
    query (.reply (S "?\r")) = .ok [S "?"] ∧
    handle_query (.reply (S "?\r")) = [S "?"] ∧
    [S "?"] ≠ ([] : List Str) := by
  refine ⟨rfl, rfl, rfl, rfl, by decide⟩

/-! ### Lookup tables (`common710.py:142-298`)

Python dictionaries become functions into `Option`; a `none` result models a
`KeyError`.  The bidirectional `{'map': ..., 'inv': ...}` pairs are modelled
by separate `_map` and `_inv` functions. -/

/-- Table `STATE_DICT['map']`. -/
def STATE_map (k : Str) : Option Str :=
  if k = S "0" then some (S "OFF") else if k = S "1" then some (S "ON") else none

/-- Table `SIDE_DICT['map']`. -/
def SIDE_map (k : Str) : Option Str :=
  if k = S "0" then some (S "A") else if k = S "1" then some (S "B") else none

/-- Table `SIDE_DICT['inv']`. -/
def SIDE_inv (k : Str) : Option Str :=
  if k = S "A" then some (S "0") else if k = S "B" then some (S "1") else none

/-- Table `MODE_DICT['map']`. -/
def MODE_map (k : Str) : Option Str :=
  if k = S "0" then some (S "VFO") else if k = S "1" then some (S "MR")
  else if k = S "2" then some (S "CALL") else if k = S "3" then some (S "WX")
  else none

/-- Table `MODULATION_DICT['map']`. -/
def MODULATION_map (k : Str) : Option Str :=
  if k = S "0" then some (S "FM") else if k = S "1" then some (S "NFM")
  else if k = S "2" then some (S "AM") else none

/-- Table `POWER_DICT['map']`. -/
def POWER_map (k : Str) : Option Str :=
  if k = S "0" then some (S "H") else if k = S "1" then some (S "M")
  else if k = S "2" then some (S "L") else none

/-- Table `STEP_DICT['map']` (kHz step size per step code). -/
def STEP_map (k : Str) : Option Str :=
  if k = S "0" then some (S "5") else if k = S "1" then some (S "6.25")
  else if k = S "2" then some (S "8.33") else if k = S "3" then some (S "10")
  else if k = S "4" then some (S "12.5") else if k = S "5" then some (S "15")
  else if k = S "6" then some (S "20") else if k = S "7" then some (S "25")
  else if k = S "8" then some (S "30") else if k = S "9" then some (S "50")
  else if k = S "A" then some (S "100") else none

/-- Table `SHIFT_DICT['map']`. -/
def SHIFT_map (k : Str) : Option Str :=
  if k = S "0" then some (S "S") else if k = S "1" then some (S "+")
  else if k = S "2" then some (S "-") else none

/-- Table `REVERSE_DICT['map']`. -/
def REVERSE_map (k : Str) : Option Str :=
  if k = S "0" then some (S " ") else if k = S "1" then some (S "R") else none

/-- Table `DATA_SPEED_DICT['map']`. -/
def DATA_SPEED_map (k : Str) : Option Str :=
  if k = S "0" then some (S "1200") else if k = S "1" then some (S "9600") else none

/-- Table `TIMEOUT_DICT['map']`. -/
def TIMEOUT_map (k : Str) : Option Str :=
  if k = S "0" then some (S "3") else if k = S "1" then some (S "5")
  else if k = S "2" then some (S "10") else none

/-- Table `BACKLIGHT_DICT['map']`. -/
def BACKLIGHT_map (k : Str) : Option Str :=
  if k = S "0" then some (S "amber") else if k = S "1" then some (S "green") else none

/-- Table `LOCK_DICT['map']` (alias of `STATE_DICT`). -/
def LOCK_map (k : Str) : Option Str := STATE_map k

/-- Values of `_pll_frequency_dict` in key order `'00'..'41'`. -/
def pllValues : List Str :=
  [S "67", S "69.3", S "71.9", S "74.4", S "77", S "79.7", S "82.5", S "85.4",
   S "88.5", S "91.5", S "94.8", S "97.4", S "100", S "103.5", S "107.2",
   S "110.9", S "114.8", S "118.8", S "123", S "127.3", S "131.8", S "136.5",
   S "141.3", S "146.2", S "151.4", S "156.7", S "162.2", S "167.9", S "173.8",
   S "179.9", S "186.2", S "192.8", S "203.5", S "240.7", S "210.7", S "218.1",
   S "225.7", S "229.1", S "233.6", S "241.8", S "250.3", S "254.1"]

/-- Values of `_dcs_frequency_dict` in key order `'000'..'103'`. -/
def dcsValues : List Str :=
  [S "23", S "25", S "26", S "31", S "32", S "36", S "43", S "47",
   S "51", S "53", S "54", S "65", S "71", S "72", S "73", S "74",
   S "114", S "115", S "116", S "122", S "125", S "131", S "132", S "134",
   S "143", S "145", S "152", S "155", S "156", S "162", S "165", S "172",
   S "174", S "205", S "212", S "223", S "225", S "226", S "243", S "244",
   S "245", S "246", S "251", S "252", S "255", S "261", S "263", S "265",
   S "266", S "271", S "274", S "306", S "311", S "315", S "325", S "331",
   S "332", S "343", S "346", S "351", S "356", S "364", S "365", S "371",
   S "411", S "412", S "413", S "423", S "431", S "432", S "445", S "446",
   S "452", S "454", S "455", S "462", S "464", S "465", S "466", S "503",
   S "506", S "516", S "523", S "526", S "532", S "546", S "565", S "606",
   S "612", S "624", S "627", S "631", S "632", S "654", S "662", S "664",
   S "703", S "712", S "723", S "731", S "732", S "734", S "743", S "754"]

/-- Table `_pll_frequency_dict` (`TONE_FREQUENCY_DICT['6'/'7'/'Tone'/'CTCSS']['map']`):
the keys are exactly the two-digit strings `'00'..'41'`. -/
def TONE_FREQUENCY_pll (k : Str) : Option Str :=
  if k.length = 2 ∧ k.all Char.isDigit then pllValues.get? (decValue k) else none

/-- Table `_dcs_frequency_dict` (`TONE_FREQUENCY_DICT['8'/'DCS']['map']`): the
keys are exactly the three-digit strings `'000'..'103'`. -/
def TONE_FREQUENCY_dcs (k : Str) : Option Str :=
  if k.length = 3 ∧ k.all Char.isDigit then dcsValues.get? (decValue k) else none

/-- Inverse of `_pll_frequency_dict` (`TONE_FREQUENCY_DICT[...]['inv']`); the
values are pairwise distinct in the source so the first hit is the unique
one. -/
def TONE_FREQUENCY_pll_inv (v : Str) : Option Str :=
  (List.range pllValues.length).findSome?
    (fun i => if pllValues.get? i = some v then some (padZeros 2 (natToDigits i)) else none)

/-- Inverse of `_dcs_frequency_dict`. -/
def TONE_FREQUENCY_dcs_inv (v : Str) : Option Str :=
  (List.range dcsValues.length).findSome?
    (fun i => if dcsValues.get? i = some v then some (padZeros 3 (natToDigits i)) else none)

/-- Keys of `TONE_TYPE_DICT['map']` in insertion order (`'0','6','7','8'`). -/
def TONE_TYPE_keys : List Str := [S "0", S "6", S "7", S "8"]

/-- Side frequency limits in MHz (`FREQUENCY_LIMITS`), lower bound. -/
def FREQUENCY_LIMITS_min (side : Str) : Option ℚ :=
  if side = S "A" then some 118 else if side = S "B" then some 136 else none

/-- Side frequency limits in MHz (`FREQUENCY_LIMITS`), upper bound. -/
def FREQUENCY_LIMITS_max (side : Str) : Option ℚ :=
  if side = S "A" then some 524 else if side = S "B" then some 1300 else none

/-- Function `within_frequency_limits(side, freq)` (`common710.py:69-82`);
`none` models the `KeyError` on an unknown side.  The Python float
comparisons are modelled over `ℚ` (the bounds 118.0, 524.0, 136.0, 1300.0
are exactly representable, and integer-Hz inputs scaled by 10⁻⁶ cannot
round across these bounds). -/
def within_frequency_limits (side : Str) (freq : ℚ) : Option Bool :=
  match FREQUENCY_LIMITS_min side, FREQUENCY_LIMITS_max side with
  | some mn, some mx => some (decide (mn ≤ freq) && decide (freq ≤ mx))
  | _, _ => none

/-- Ham band limits in Hz (`FREQUENCY_BAND_LIMITS`), as (min, max) pairs. -/
def FREQUENCY_BAND_LIMITS : List (Int × Int) :=
  [(118000000, 136000000), (136000000, 200000000), (200000000, 300000000),
   (400000000, 524000000), (800000000, 1300000000)]

/-- Function `same_frequency_band(freq1, freq2)` (`common710.py:85-100`);
Python `x in range(min, max)` is the half-open integer test. -/
def same_frequency_band (freq1 freq2 : Int) : Bool :=
  FREQUENCY_BAND_LIMITS.any
    (fun p => decide (p.1 ≤ freq1 ∧ freq1 < p.2) && decide (p.1 ≤ freq2 ∧ freq2 < p.2))

/-- Function `frequency_shifts(frequency)` (`common710.py:103-126`): shift
direction code and shift offset in Hz for a frequency in Hz. -/
def frequency_shifts (frequency : Int) : Str × Str :=
  if 145100000 ≤ frequency ∧ frequency ≤ 145499900 then (S "2", S "00600000")
  else if 146000000 ≤ frequency ∧ frequency ≤ 146399000 then (S "1", S "00600000")
  else if 146600000 ≤ frequency ∧ frequency ≤ 146999000 then (S "2", S "00600000")
  else if 147000000 ≤ frequency ∧ frequency ≤ 147399000 then (S "1", S "00600000")
  else if 147600000 ≤ frequency ∧ frequency ≤ 147999000 then (S "2", S "00600000")
  else if 442000000 ≤ frequency ∧ frequency ≤ 444999000 then (S "1", S "05000000")
  else if 447000000 ≤ frequency ∧ frequency ≤ 449999000 then (S "2", S "05000000")
  else (S "0", S "00000000")

/-! ### The cached state dictionary (`Cat.__init__`, `cat710.py:191-220`)

Only the keys that `update_dictionary` reads or writes are modelled; the
static `gpio` / `id` / `info` entries are never touched by the refresh and
are omitted.  Python `None` becomes `Option.none`. -/

/-- Value stored under `ch_number`: `update_dictionary` writes either
`int(result[2])` or the literal two-space string. -/
inductive ChNum
  | num (n : Int)
  | blank
deriving DecidableEq, Repr

/-- Per-side slice of the state dictionary. -/
structure SideState where
  mode : Option Str := none
  ch_name : Option Str := none
  ch_number : Option ChNum := none
  frequency : Option Str := none
  shift : Option Str := none
  reverse : Option Str := none
  tone : Option Str := none
  tone_frequency : Option Str := none
  modulation : Option Str := none
  power : Option Str := none
  ptt : Option Str := none
  ctrl : Option Str := none
  data : Option Str := none
  step : Option Str := none
deriving DecidableEq, Repr

/-- The cached `RadioState` dictionary. -/
structure RadioState where
  A : SideState := {}
  B : SideState := {}
  backlight : Option Str := none
  vhf_aip : Option Str := none
  uhf_aip : Option Str := none
  timeout : Option Str := none
  lock : Option Str := none
  speed : Option Str := none
  data_side : Option Str := none
deriving DecidableEq, Repr

/-- State dictionary as initialized in `Cat.__init__`. -/
def initState : RadioState := {}

/-- A radio oracle maps each CAT command string to the `handle_query`
result for that exchange: the decoded reply fields, or `[]` when the
exchange failed (no reply or I/O error). -/
abbrev Radio := Str → List Str

/-- Outcome of `update_dictionary`: returned the refreshed dictionary,
returned the empty dictionary (a sub-query produced no data), or raised an
exception (IndexError / KeyError / ValueError). -/
inductive UD
  | ok
  | noData
  | exn
deriving DecidableEq, Repr

/-- Write to `self.state[SIDE_DICT['map'][s]]`; `none` models the `KeyError`
on a side key outside `{'0','1'}`. -/
def updSide (st : RadioState) (s : Str) (f : SideState → SideState) :
    Option RadioState :=
  match SIDE_map s with
  | some a =>
    if a = S "A" then some { st with A := f st.A }
    else if a = S "B" then some { st with B := f st.B }
    else none
  | none => none

/-- Early-exit plumbing for the refresh: either `update_dictionary` has
already returned (left) or it continues with the mutated state (right). -/
abbrev Step := (UD × RadioState) ⊕ RadioState

/-- Function `common_elements` inside `update_dictionary`
(`cat710.py:454-492`): decode tone type and frequency (Tone bit, then CTCSS
bit, then DCS bit, else no tone), then write tone, shift, reverse,
modulation, mode, step and formatted frequency for side `s`.  The boolean
is `false` when an Index/Key/ValueError is raised; the returned state keeps
the writes made before the raise. -/
def common_elements (r : List Str) (s : Str) (mode_str : Str) (st : RadioState) :
    Bool × RadioState :=
  let ttf : Option (Str × Str) :=
    match r.get? 6 with
    | none => none
    | some x6 =>
      match STATE_map x6 with
      | none => none
      | some v6 =>
        if v6 = S "ON" then
          match r.get? 9 with
          | none => none
          | some x9 =>
            match TONE_FREQUENCY_pll x9 with
            | none => none
            | some tf => some (S "Tone", tf)
        else
          match r.get? 7 with
          | none => none
          | some x7 =>
            match STATE_map x7 with
            | none => none
            | some v7 =>
              if v7 = S "ON" then
                match r.get? 10 with
                | none => none
                | some x10 =>
                  match TONE_FREQUENCY_pll x10 with
                  | none => none
                  | some tf => some (S "CTCSS", tf)
              else
                match r.get? 8 with
                | none => none
                | some x8 =>
                  match STATE_map x8 with
                  | none => none
                  | some v8 =>
                    if v8 = S "ON" then
                      match r.get? 11 with
                      | none => none
                      | some x11 =>
                        match TONE_FREQUENCY_dcs x11 with
                        | none => none
                        | some tf => some (S "DCS", tf)
                    else some (S "No Tone", S " ")
  match ttf with
  | none => (false, st)
  | some (t, tf) =>
    match updSide st s (fun sd => { sd with tone := some t }) with
    | none => (false, st)
    | some st1 =>
      match updSide st1 s (fun sd => { sd with tone_frequency := some tf }) with
      | none => (false, st1)
      | some st2 =>
        match r.get? 4 with
        | none => (false, st2)
        | some x4 =>
          match SHIFT_map x4 with
          | none => (false, st2)
          | some sh =>
            match updSide st2 s (fun sd => { sd with shift := some sh }) with
            | none => (false, st2)
            | some st3 =>
              match r.get? 5 with
              | none => (false, st3)
              | some x5 =>
                match REVERSE_map x5 with
                | none => (false, st3)
                | some rv =>
                  match updSide st3 s (fun sd => { sd with reverse := some rv }) with
                  | none => (false, st3)
                  | some st4 =>
                    match r.get? 13 with
                    | none => (false, st4)
                    | some x13 =>
                      match MODULATION_map x13 with
                      | none => (false, st4)
                      | some md =>
                        match updSide st4 s
                            (fun sd => { sd with modulation := some md }) with
                        | none => (false, st4)
                        | some st5 =>
                          match updSide st5 s
                              (fun sd => { sd with mode := some mode_str }) with
                          | none => (false, st5)
                          | some st6 =>
                            match r.get? 3 with
                            | none => (false, st6)
                            | some x3 =>
                              match STEP_map x3 with
                              | none => (false, st6)
                              | some stp =>
                                match updSide st6 s
                                    (fun sd => { sd with step := some stp }) with
                                | none => (false, st6)
                                | some st7 =>
                                  match r.get? 2 with
                                  | none => (false, st7)
                                  | some x2 =>
                                    match pyInt? x2 with
                                    | none => (false, st7)
                                    | some n =>
                                      match updSide st7 s (fun sd =>
                                          { sd with frequency := some (pyFormat3 n) }) with
                                      | none => (false, st7)
                                      | some st8 => (true, st8)

/-- Memory-mode leg of the per-side refresh (`cat710.py:511-542`): `MR`
query for the channel number, `FO` for the channel record, `MN` for the
channel name. -/
def memoryRefresh (radio : Radio) (s : Str) (st : RadioState) : Step :=
  let r := radio (S "MR " ++ s)
  if r = [] then .inl (UD.noData, st) else
  match r.get? 2 with
  | none => .inl (UD.exn, st)
  | some chraw =>
    match pyInt? chraw with
    | none => .inl (UD.exn, st)
    | some n =>
      match updSide st s (fun sd => { sd with ch_number := some (ChNum.num n) }) with
      | none => .inl (UD.exn, st)
      | some st1 =>
        let r2 := radio (S "FO " ++ s)
        if r2 = [] then .inl (UD.noData, st1) else
        match common_elements r2 s (S "MR") st1 with
        | (false, st2) => .inl (UD.exn, st2)
        | (true, st2) =>
          let r3 := radio (S "MN " ++ chraw)
          if r3 = [] then .inl (UD.noData, st2) else
          match r3.get? 0 with
          | none => .inl (UD.exn, st2)
          | some h0 =>
            if h0 = S "N" then .inr st2
            else
              match r3.get? 2 with
              | none => .inl (UD.exn, st2)
              | some nm =>
                match updSide st2 s (fun sd => { sd with ch_name := some nm }) with
                | none => .inl (UD.exn, st2)
                | some st3 => .inr st3

/-- VFO / Call / Weather leg of the per-side refresh (`cat710.py:546-589`):
`FO` query, `common_elements`, then blank channel number and name. -/
def foRefresh (radio : Radio) (s : Str) (mode_str : Str) (st : RadioState) : Step :=
  let r := radio (S "FO " ++ s)
  if r = [] then .inl (UD.noData, st) else
  match common_elements r s mode_str st with
  | (false, st1) => .inl (UD.exn, st1)
  | (true, st1) =>
    match updSide st1 s (fun sd => { sd with ch_number := some ChNum.blank }) with
    | none => .inl (UD.exn, st1)
    | some st2 =>
      match updSide st2 s (fun sd => { sd with ch_name := some (S "      ") }) with
      | none => .inl (UD.exn, st2)
      | some st3 => .inr st3

/-- Power query for one side (`cat710.py:592-599`). -/
def powerRefresh (radio : Radio) (s : Str) (st : RadioState) : Step :=
  let r := radio (S "PC " ++ s)
  if r = [] then .inl (UD.noData, st) else
  match r.get? 2 with
  | none => .inl (UD.exn, st)
  | some pc =>
    match POWER_map pc with
    | none => .inl (UD.exn, st)
    | some pv =>
      match updSide st s (fun sd => { sd with power := some pv }) with
      | none => .inl (UD.exn, st)
      | some st1 => .inr st1

/-- One iteration of the per-side loop of `update_dictionary`
(`cat710.py:506-599`): `VM` query, mode dispatch, then power. -/
def sideRefresh (radio : Radio) (s : Str) (st : RadioState) : Step :=
  let r := radio (S "VM " ++ s)
  if r = [] then .inl (UD.noData, st) else
  match r.get? 2 with
  | none => .inl (UD.exn, st)
  | some mc =>
    match MODE_map mc with
    | none => .inl (UD.exn, st)
    | some m =>
      let branch : Step :=
        if m = S "MR" then memoryRefresh radio s st
        else if m = S "VFO" then foRefresh radio s (S "VFO") st
        else if m = S "CALL" then foRefresh radio s (S "CALL") st
        else if m = S "WX" then foRefresh radio s (S "WX") st
        else .inr st
      match branch with
      | .inl out => .inl out
      | .inr st1 => powerRefresh radio s st1

/-- Menu (`MU`) leg of the refresh (`cat710.py:600-625`). -/
def muRefresh (radio : Radio) (st : RadioState) : Step :=
  let r := radio (S "MU")
  if r = [] then .inl (UD.noData, st) else
  match r.get? 38 with
  | none => .inl (UD.exn, st)
  | some f38 =>
    let ds : Option RadioState :=
      if f38 = S "0" ∨ f38 = S "1" then
        match SIDE_map f38 with
        | none => none
        | some a => some { st with data_side := some a }
      else some { st with data_side := none }
    match ds with
    | none => .inl (UD.exn, st)
    | some st1 =>
      let dataA := if f38 = S "0" then S "D" else if f38 = S "2" then S "D-TX"
        else if f38 = S "3" then S "D-RX" else S " "
      let dataB := if f38 = S "1" then S "D" else if f38 = S "2" then S "D-RX"
        else if f38 = S "3" then S "D-TX" else S " "
      match updSide st1 (S "0") (fun sd => { sd with data := some dataA }) with
      | none => .inl (UD.exn, st1)
      | some st2 =>
        match updSide st2 (S "1") (fun sd => { sd with data := some dataB }) with
        | none => .inl (UD.exn, st2)
        | some st3 =>
          match r.get? 39 with
          | none => .inl (UD.exn, st3)
          | some x39 =>
            match DATA_SPEED_map x39 with
            | none => .inl (UD.exn, st3)
            | some sp =>
              let st4 := { st3 with speed := some sp }
              match r.get? 16 with
              | none => .inl (UD.exn, st4)
              | some x16 =>
                match TIMEOUT_map x16 with
                | none => .inl (UD.exn, st4)
                | some tmo =>
                  let st5 := { st4 with timeout := some tmo }
                  match r.get? 11 with
                  | none => .inl (UD.exn, st5)
                  | some x11 =>
                    match STATE_map x11 with
                    | none => .inl (UD.exn, st5)
                    | some va =>
                      let st6 := { st5 with vhf_aip := some va }
                      match r.get? 12 with
                      | none => .inl (UD.exn, st6)
                      | some x12 =>
                        match STATE_map x12 with
                        | none => .inl (UD.exn, st6)
                        | some ua =>
                          let st7 := { st6 with uhf_aip := some ua }
                          match r.get? 28 with
                          | none => .inl (UD.exn, st7)
                          | some x28 =>
                            match BACKLIGHT_map x28 with
                            | none => .inl (UD.exn, st7)
                            | some bl =>
                              .inr { st7 with backlight := some bl }

/-- Lock (`LK`) leg of the refresh (`cat710.py:626-633`). -/
def lkRefresh (radio : Radio) (st : RadioState) : Step :=
  let r := radio (S "LK")
  if r = [] then .inl (UD.noData, st) else
  match r.get? 1 with
  | none => .inl (UD.exn, st)
  | some x1 =>
    match LOCK_map x1 with
    | none => .inl (UD.exn, st)
    | some lk =>
      .inr { st with lock := some lk }

/-- Method `Cat.update_dictionary` (`cat710.py:444-634`).  The second
component is the value of `self.state` when the method exits: the
dictionary is mutated in place as replies arrive, and an early exit (empty
result or exception) keeps all writes already made. -/
def update_dictionary (radio : Radio) (st0 : RadioState) : UD × RadioState :=
  let r := radio (S "BC")
  if r = [] then (UD.noData, st0) else
  match r.get? 1 with
  | none => (UD.exn, st0)
  | some c1 =>
    let st1 := { st0 with A := { st0.A with
      ctrl := some (if c1 = S "0" then S "CTRL" else S "   ") } }
    let st2 := { st1 with B := { st1.B with
      ctrl := some (if c1 = S "1" then S "CTRL" else S "   ") } }
    match r.get? 2 with
    | none => (UD.exn, st2)
    | some c2 =>
      let st3 := { st2 with A := { st2.A with
        ptt := some (if c2 = S "0" then S "PTT" else S "   ") } }
      let st4 := { st3 with B := { st3.B with
        ptt := some (if c2 = S "1" then S "PTT" else S "   ") } }
      match sideRefresh radio (S "0") st4 with
      | .inl out => out
      | .inr st5 =>
        match sideRefresh radio (S "1") st5 with
        | .inl out => out
        | .inr st6 =>
          match muRefresh radio st6 with
          | .inl out => out
          | .inr st7 =>
            match lkRefresh radio st7 with
            | .inl out => out
            | .inr st8 => (UD.ok, st8)

/-! ### Claim C1: atomicity of `update_dictionary` -/

/-- Radio oracle for the C1 counterexample: the `BC` sub-query succeeds,
every following sub-query (starting with `VM 0`) returns no reply. -/
def c1Radio : Radio := fun c => if c = S "BC" then [S "BC", S "0", S "0"] else []

/-- Claim C1 counterexample: with a radio whose `BC` reply succeeds and
whose `VM 0` sub-query returns no reply, `update_dictionary` returns the
empty result, but the cached dictionary is NOT left as it was: the
`ctrl`/`ptt` fields written by the earlier successful `BC` sub-query of the
same refresh remain changed. -/
theorem c1_counterexample :
    (update_dictionary c1Radio initState).1 = UD.noData ∧
    (update_dictionary c1Radio initState).2 ≠ initState ∧
    ((update_dictionary c1Radio initState).2).A.ctrl = some (S "CTRL") := by
  refine ⟨rfl, by decide, rfl⟩

/-- State of the dictionary after the four `ctrl`/`ptt` writes made from a
well-formed `BC` reply `('BC', c, p)` (`cat710.py:499-502`). -/
def applyBC (st : RadioState) (c p : Str) : RadioState :=
  { st with
    A := { st.A with ctrl := some (if c = S "0" then S "CTRL" else S "   "),
                     ptt := some (if p = S "0" then S "PTT" else S "   ") },
    B := { st.B with ctrl := some (if c = S "1" then S "CTRL" else S "   "),
                     ptt := some (if p = S "1" then S "PTT" else S "   ") } }

/-- Claim C1 (amended): when a sub-query of `update_dictionary` returns no
reply, the method returns the empty result, but the cached `RadioState` is
not rolled back — fields written by earlier successful sub-queries of the
same refresh keep their new values.  Representative general statement: for
every radio and cached state, if `BC` yields a well-formed reply and the
following `VM 0` sub-query fails, the refresh returns "no data" with the
`ctrl`/`ptt` writes from `BC` still applied. -/
theorem c1_no_rollback (radio : Radio) (st : RadioState) (c p : Str)
    (hBC : radio (S "BC") = [S "BC", c, p])
    (hVM : radio (S "VM " ++ S "0") = []) :
    update_dictionary radio st = (UD.noData, applyBC st c p) := by
  simp [update_dictionary, hBC, hVM, sideRefresh, applyBC]

/-- Witness for `c1_no_rollback` at a concrete radio and state. -/
theorem c1_no_rollback_witness :
    update_dictionary c1Radio initState =
      (UD.noData, applyBC initState (S "0") (S "0")) :=
  c1_no_rollback c1Radio initState (S "0") (S "0") rfl rfl

/-! ### Job execution: `Cat.run_job` (`cat710.py:643-1008`)

Only the dispatch arms the claims are about are embedded: the
channel-mutation arm (`frequency` / `modulation` / `step` / `tone` /
`tone_frequency` / `rev` / `shift`, lines 739-868) and the `up`/`down` arm
(lines 918-974).  A `JobResult` records the outcome (`done` = the job list
was returned, `failed` = the empty list was returned, `exn` = an uncaught
exception), the CAT commands passed to `handle_query` in order, and the
levels of the messages put on the message queue (the texts carry wall-clock
timestamps and are abstracted to their level tag). -/

/-- Outcome of one `run_job` call. -/
inductive JOutcome
  | done
  | failed
  | exn
deriving DecidableEq, Repr

/-- Observable result of one `run_job` call. -/
structure JobResult where
  outcome : JOutcome
  sent : List Str
  msgs : List Str
deriving DecidableEq, Repr

/-- Result of `get_arg_list`: `fail` models the empty return list, `exn` an
uncaught exception. -/
inductive GalRes
  | exn
  | fail
  | ok (l : List Str)
deriving DecidableEq, Repr

/-- Nested function `get_arg_list` (`cat710.py:656-689`): resolve the active
channel record for the job's side.  Second component: the commands sent. -/
def get_arg_list (radio : Radio) (side : Str) : GalRes × List Str :=
  if side = S "A" ∨ side = S "B" then
    match SIDE_inv side with
    | none => (.exn, [])
    | some arg0 =>
      let q1 := S "VM " ++ arg0
      let a1 := radio q1
      if a1 = [] then (.fail, [q1]) else
      match a1 with
      | [_, _, m] =>
        if m = S "0" then
          let q2 := S "FO " ++ arg0
          let a2 := radio q2
          if a2 = [] then (.fail, [q1, q2]) else (.ok a2, [q1, q2])
        else if m = S "1" then
          let q2 := S "MR " ++ arg0
          let a2 := radio q2
          if a2 = [] then (.fail, [q1, q2]) else
          match a2.get? 2 with
          | none => (.exn, [q1, q2])
          | some ch =>
            let q3 := S "ME " ++ ch
            let a3 := radio q3
            if a3 = [] then (.fail, [q1, q2, q3]) else (.ok a3, [q1, q2, q3])
        else if m = S "2" then
          let q2 := S "CC " ++ arg0
          let a2 := radio q2
          if a2 = [] then (.fail, [q1, q2]) else (.ok a2, [q1, q2])
        else
          let q2 := S "VM " ++ arg0 ++ S ",3"
          let a2 := radio q2
          if a2 = [] then (.fail, [q1, q2]) else (.ok a2, [q1, q2])
      | _ => (.exn, [q1])
  else (.fail, [])

/-- Python `l[i] = v` for a non-negative index: IndexError (`none`) when the
index is out of range. -/
def setIdx? (l : List Str) (i : Nat) (v : Str) : Option (List Str) :=
  if i < l.length then some (l.set i v) else none

/-- Python `l[i] = v` for a possibly negative (end-relative) index. -/
def pySetInt? (l : List Str) (i : Int) (v : Str) : Option (List Str) :=
  if 0 ≤ i then setIdx? l i.toNat v
  else if (-i).toNat ≤ l.length then setIdx? l (l.length - (-i).toNat) v
  else none

/-- Jobs handled by the channel-mutation arm of `run_job`. -/
inductive MutJob
  | frequency (side : Str) (mhz : ℚ)
  | modulation (side : Str) (v : Str)
  | step (side : Str) (v : Str)
  | tone (side : Str) (v : Str)
  | tone_frequency (side : Str) (v : Str)
  | rev (side : Str)
  | shift (side : Str) (v : Str)
deriving DecidableEq, Repr

/-- Side (`job[1]`) of a mutation job. -/
def MutJob.side : MutJob → Str
  | .frequency s _ => s
  | .modulation s _ => s
  | .step s _ => s
  | .tone s _ => s
  | .tone_frequency s _ => s
  | .rev s => s
  | .shift s _ => s

/-- The `for key in TONE_TYPE_DICT['map']` search (`cat710.py:749-760`):
returns the current tone-type key and the `same_type` flag, `none` on an
IndexError.  The loop tests `arg_list[int(key)] == '1'` for the keys
`'0','6','7','8'` in order and breaks at the first hit; the `for`-`else`
clause sets `current_type = '0'` and compares it to `job[2]` without
consulting the job kind. -/
def findCurrentTone (l : List Str) (isToneJob : Bool) (v : Str) :
    Option (Str × Bool) :=
  match l.get? 0 with
  | none => none
  | some x0 =>
    if x0 = S "1" then some (S "0", isToneJob && decide (v = S "0"))
    else
      match l.get? 6 with
      | none => none
      | some x6 =>
        if x6 = S "1" then some (S "6", isToneJob && decide (v = S "6"))
        else
          match l.get? 7 with
          | none => none
          | some x7 =>
            if x7 = S "1" then some (S "7", isToneJob && decide (v = S "7"))
            else
              match l.get? 8 with
              | none => none
              | some x8 =>
                if x8 = S "1" then some (S "8", isToneJob && decide (v = S "8"))
                else some (S "0", decide (v = S "0"))

/-- Lookup `TONE_FREQUENCY_DICT[current_type]['inv']`; for the key `'0'` the
entry is the plain string `' '` and subscripting it with `['inv']` raises,
modelled as `none`. -/
def TONE_FREQUENCY_inv_for (t : Str) (v : Str) : Option Str :=
  if t = S "6" ∨ t = S "7" then TONE_FREQUENCY_pll_inv v
  else if t = S "8" then TONE_FREQUENCY_dcs_inv v
  else none

/-- Tone block of the mutation arm (`cat710.py:747-779`): find the current
tone type; for a `tone` job with a different requested type, zero the three
tone-kind bits (fields 6, 7, 8) and set the requested type's bit; for a
`tone_frequency` job, write the encoded requested frequency into the
current type's frequency field (`int(current_type) + 3`).  Note the source
guards the frequency-field write with `job[0] == 'tone_frequency'`, so a
`tone` job never touches the frequency fields. -/
def toneBlock (l : List Str) (isToneJob isToneFreqJob : Bool) (v : Str) :
    Option (List Str) :=
  match findCurrentTone l isToneJob v with
  | none => none
  | some (cur, same) =>
    let step1 : Option (List Str) :=
      if isToneJob && !same then
        match setIdx? l 6 (S "0") with
        | none => none
        | some l1 =>
          match setIdx? l1 7 (S "0") with
          | none => none
          | some l2 =>
            match setIdx? l2 8 (S "0") with
            | none => none
            | some l3 =>
              if v ≠ S "0" then
                match pyInt? v with
                | none => none
                | some i => pySetInt? l3 i (S "1")
              else some l3
      else some l
    match step1 with
    | none => none
    | some l4 =>
      if isToneFreqJob && decide (cur ≠ S "0") then
        match pyInt? cur with
        | none => none
        | some k =>
          match TONE_FREQUENCY_inv_for cur v with
          | none => none
          | some code => pySetInt? l4 (k + 3) code
      else some l4

/-- Frequency assignment of the mutation arm (`cat710.py:780-783`): write
`f"{int(job[2] * 1000000):010d}"` into field 2 and the recomputed
`frequency_shifts` direction/offset into fields 4 and 12. -/
def freqApply (l : List Str) (mhz : ℚ) : Option (List Str) :=
  let hz := pyTrunc (mhz * 1000000)
  match setIdx? l 2 (pyFormatD 10 hz) with
  | none => none
  | some l1 =>
    match setIdx? l1 4 (frequency_shifts hz).1 with
    | none => none
    | some l2 => setIdx? l2 12 (frequency_shifts hz).2

/-- Reverse block of the mutation arm (`cat710.py:791-811`): toggle the
reverse bit (field 5) and shift the raw frequency (field 2) by the offset
(field 12) according to the shift direction (field 4); entering reverse
adds the offset on shift `'1'` and subtracts it on `'2'`, leaving reverse
does the opposite. -/
def revApply (l : List Str) : Option (List Str) :=
  match l.get? 2 with
  | none => none
  | some s2 =>
    match pyInt? s2 with
    | none => none
    | some f0 =>
      match l.get? 5 with
      | none => none
      | some b =>
        let branch : Option (Int × List Str) :=
          if b = S "0" then
            match setIdx? l 5 (S "1") with
            | none => none
            | some l1 =>
              match l1.get? 4 with
              | none => none
              | some sh =>
                if sh = S "1" then
                  match l1.get? 12 with
                  | none => none
                  | some o =>
                    match pyInt? o with
                    | none => none
                    | some d => some (f0 + d, l1)
                else if sh = S "2" then
                  match l1.get? 12 with
                  | none => none
                  | some o =>
                    match pyInt? o with
                    | none => none
                    | some d => some (f0 - d, l1)
                else some (f0, l1)
          else
            match setIdx? l 5 (S "0") with
            | none => none
            | some l1 =>
              match l1.get? 4 with
              | none => none
              | some sh =>
                if sh = S "1" then
                  match l1.get? 12 with
                  | none => none
                  | some o =>
                    match pyInt? o with
                    | none => none
                    | some d => some (f0 - d, l1)
                else if sh = S "2" then
                  match l1.get? 12 with
                  | none => none
                  | some o =>
                    match pyInt? o with
                    | none => none
                    | some d => some (f0 + d, l1)
                else some (f0, l1)
        match branch with
        | none => none
        | some (f1, l2) => setIdx? l2 2 (pyFormatD 10 f1)

/-- Memory-write confirmation block of the mutation arm
(`cat710.py:814-865`): toggle to VFO, read the side's VFO record, toggle
back, ask the user; Yes/OK warns and proceeds, Cancel nulls the job, No
copies the record to the VFO (rewriting fields 0 and 1 and truncating to 14
fields).  Result: either an early exit outcome, or (jobNulled, final list),
plus sent commands and message levels. -/
def meBlock (radio : Radio) (ask : Option Bool) (side : Str) (l : List Str) :
    (JOutcome ⊕ (Bool × List Str)) × List Str × List Str :=
  match SIDE_inv side with
  | none => (.inl .exn, [], [])
  | some sc =>
    let q1 := S "VM " ++ sc ++ S ",0"
    if radio q1 = [] then (.inl .failed, [q1], []) else
    let q2 := S "FO " ++ sc
    let a2 := radio q2
    if a2 = [] then (.inl .failed, [q1, q2], []) else
    let q3 := S "VM " ++ sc ++ S ",1"
    if radio q3 = [] then (.inl .failed, [q1, q2, q3], []) else
    let sent0 := [q1, q2, q3]
    match a2.get? 2 with
    | none => (.inl .exn, sent0, [])
    | some r2 =>
      match pyInt? r2 with
      | none => (.inl .exn, sent0, [])
      | some fvfo =>
        match l.get? 2 with
        | none => (.inl .exn, sent0, [])
        | some l2v =>
          match pyInt? l2v with
          | none => (.inl .exn, sent0, [])
          | some fmem =>
            match l.get? 1 with
            | none => (.inl .exn, sent0, [])
            | some l1v =>
              match pyInt? l1v with
              | none => (.inl .exn, sent0, [])
              | some _ =>
                let answer : Option Bool :=
                  if same_frequency_band fvfo fmem then ask
                  else
                    match ask with
                    | some true => some true
                    | _ => none
                match answer with
                | some true => (.inr (false, l), sent0, [S "WARNING"])
                | none => (.inr (true, l), sent0, [])
                | some false =>
                  let q4 := S "VM " ++ sc ++ S ",0"
                  if radio q4 = [] then (.inl .failed, sent0 ++ [q4], [S "INFO"])
                  else
                    match setIdx? l 0 (S "FO") with
                    | none => (.inl .exn, sent0 ++ [q4], [S "INFO"])
                    | some la =>
                      match setIdx? la 1 sc with
                      | none => (.inl .exn, sent0 ++ [q4], [S "INFO"])
                      | some lb =>
                        (.inr (false, lb.take 14), sent0 ++ [q4], [S "INFO"])

/-- Channel-mutation arm of `Cat.run_job` (`cat710.py:739-868`) for the
seven read-modify-write job kinds.  `ask` is the user's answer to the
memory-write confirmation (`some true` = Yes/OK, `some false` = No,
`none` = Cancel). -/
def run_job_mut (radio : Radio) (ask : Option Bool) (job : MutJob) : JobResult :=
  match get_arg_list radio job.side with
  | (.exn, log) => ⟨.exn, log, []⟩
  | (.fail, log) => ⟨.failed, log, []⟩
  | (.ok l0, log) =>
    match l0.get? 0 with
    | none => ⟨.failed, log, []⟩
    | some hd =>
      if hd = S "N" then ⟨.failed, log, []⟩ else
      let jnull : Bool := !(decide (hd = S "CC" ∨ hd = S "FO" ∨ hd = S "ME"))
      let afterTone : Option (List Str) :=
        if jnull then some l0 else
        match job with
        | .tone _ v => toneBlock l0 true false v
        | .tone_frequency _ v => toneBlock l0 false true v
        | _ => some l0
      match afterTone with
      | none => ⟨.exn, log, []⟩
      | some l1 =>
        let afterMut : Option (List Str) :=
          if jnull then some l1 else
          match job with
          | .frequency _ mhz => freqApply l1 mhz
          | .modulation _ v => setIdx? l1 13 v
          | .step _ v => setIdx? l1 3 v
          | .shift _ v => setIdx? l1 4 v
          | .rev _ => revApply l1
          | _ => some l1
        match afterMut with
        | none => ⟨.exn, log, []⟩
        | some l2 =>
          let meRes : (JOutcome ⊕ (Bool × List Str)) × List Str × List Str :=
            match l2.get? 0 with
            | none => (.inr (jnull, l2), [], [])
            | some hd2 =>
              if hd2 = S "ME" then meBlock radio ask job.side l2
              else (.inr (jnull, l2), [], [])
          match meRes with
          | (.inl out, sent2, msgs2) => ⟨out, log ++ sent2, msgs2⟩
          | (.inr (jnull2, l3), sent2, msgs2) =>
            if jnull || jnull2 then ⟨.done, log ++ sent2, msgs2⟩
            else
              match l3 with
              | [] => ⟨.exn, log ++ sent2, msgs2⟩
              | h :: t =>
                let cmd := h ++ ' ' :: joinComma t
                if radio cmd = [] then ⟨.failed, log ++ sent2 ++ [cmd], msgs2⟩
                else ⟨.done, log ++ sent2 ++ [cmd], msgs2⟩

/-- The `up` / `down` arm of `Cat.run_job` (`cat710.py:918-974`).  In VFO
(`FO` record) mode the raw frequency is stepped by the step-table value and
band-checked; in Memory (`ME` record) mode the radio's own `UP`/`DW`
command is sent, temporarily moving CTRL to the side if it is not already
there.  `isDown` reflects `job[0] == 'down'`. -/
def run_job_updown (radio : Radio) (st : RadioState) (isDown : Bool)
    (side : Str) : JobResult :=
  match get_arg_list radio side with
  | (.exn, log) => ⟨.exn, log, []⟩
  | (.fail, log) => ⟨.failed, log, []⟩
  | (.ok l, log) =>
    match l.get? 0 with
    | none => ⟨.failed, log, []⟩
    | some hd =>
      if hd = S "N" then ⟨.failed, log, []⟩ else
      if hd = S "FO" then
        match l.get? 2 with
        | none => ⟨.exn, log, []⟩
        | some s2 =>
          match pyInt? s2 with
          | none => ⟨.exn, log, []⟩
          | some f0 =>
            match l.get? 3 with
            | none => ⟨.exn, log, []⟩
            | some s3 =>
              match STEP_map s3 with
              | none => ⟨.exn, log, []⟩
              | some ss =>
                match pyInt? ss with
                | none => ⟨.exn, log, []⟩
                | some k =>
                  let f1 := f0 + (if isDown then -(k * 1000) else k * 1000)
                  match FREQUENCY_LIMITS_min side, FREQUENCY_LIMITS_max side with
                  | some mn, some mx =>
                    if mn * 1000000 ≤ (f1 : ℚ) ∧ (f1 : ℚ) ≤ mx * 1000000 then
                      match setIdx? l 2 (pyFormatD 10 f1) with
                      | none => ⟨.exn, log, []⟩
                      | some l1 =>
                        match setIdx? l1 4 (frequency_shifts f1).1 with
                        | none => ⟨.exn, log, []⟩
                        | some l2 =>
                          match setIdx? l2 5 (S "0") with
                          | none => ⟨.exn, log, []⟩
                          | some l3 =>
                            match setIdx? l3 12 (frequency_shifts f1).2 with
                            | none => ⟨.exn, log, []⟩
                            | some l4 =>
                              match l4 with
                              | [] => ⟨.exn, log, []⟩
                              | h :: t =>
                                let cmd := h ++ ' ' :: joinComma t
                                if radio cmd = [] then ⟨.failed, log ++ [cmd], []⟩
                                else ⟨.done, log ++ [cmd], []⟩
                    else ⟨.done, log, [S "ERROR"]⟩
                  | _, _ => ⟨.exn, log, []⟩
      else if hd = S "ME" then
        match (if side = S "A" then some st.A
               else if side = S "B" then some st.B else none) with
        | none => ⟨.exn, log, []⟩
        | some sd =>
          let updw := if isDown then S "DW" else S "UP"
          if sd.ctrl = some (S "CTRL") then
            if radio updw = [] then ⟨.failed, log ++ [updw], []⟩
            else ⟨.done, log ++ [updw], []⟩
          else
            let ctrl : Nat := if st.A.ctrl = some (S "CTRL") then 0 else 1
            let ptt : Nat := if st.A.ptt = some (S "PTT") then 0 else 1
            let restore := S "BC " ++ natToDigits ctrl ++ S "," ++ natToDigits ptt
            match SIDE_inv side with
            | none => ⟨.exn, log, []⟩
            | some sc =>
              let movecmd := S "BC " ++ sc ++ S "," ++ natToDigits ptt
              if radio movecmd = [] then ⟨.failed, log ++ [movecmd], []⟩
              else if radio updw = [] then ⟨.failed, log ++ [movecmd, updw], []⟩
              else if radio restore = [] then
                ⟨.failed, log ++ [movecmd, updw, restore], []⟩
              else ⟨.done, log ++ [movecmd, updw, restore], []⟩
      else ⟨.done, log, []⟩

/-! ### Helper lemmas about indexed assignment -/

theorem setIdx?_pos (l : List Str) (i : Nat) (v : Str) (h : i < l.length) :
    setIdx? l i v = some (l.set i v) := by
  simp [setIdx?, h]

theorem set_of_get? (l : List Str) (i : Nat) (v : Str) (h : l.get? i = some v) :
    l.set i v = l := by
  induction l generalizing i with
  | nil => simp at h
  | cons a t ih =>
    cases i with
    | zero =>
      simp only [List.get?_cons_zero, Option.some_inj] at h
      simp [h]
    | succ j =>
      simp only [List.get?_cons_succ] at h
      simp [ih j h]

/-! ### Claim C4: the `rev` job is an involution -/

/-- Frequency delta applied when entering reverse: `+offset` on shift `'1'`,
`-offset` on shift `'2'`, nothing otherwise (`cat710.py:796-802`). -/
def revDelta (sh : Str) (d : Int) : Int :=
  if sh = S "1" then d else if sh = S "2" then -d else 0

theorem revApply_enter (l : List Str) (n d : Int) (sh o : Str)
    (h2 : l.get? 2 = some (pyFormatD 10 n))
    (h5 : l.get? 5 = some (S "0"))
    (h4 : l.get? 4 = some sh)
    (h12 : l.get? 12 = some o)
    (ho : pyInt? o = some d) :
    revApply l = some ((l.set 5 (S "1")).set 2 (pyFormatD 10 (n + revDelta sh d))) := by
  have hl5 : 5 < l.length := (List.get?_eq_some.mp h5).1
  have hl2 : 2 < l.length := (List.get?_eq_some.mp h2).1
  have h4b : (l.set 5 (S "1")).get? 4 = some sh := by
    rw [List.get?_set_ne _ _ (by omega)]
    exact h4
  have h12b : (l.set 5 (S "1")).get? 12 = some o := by
    rw [List.get?_set_ne _ _ (by omega)]
    exact h12
  have hset5 := setIdx?_pos l 5 (S "1") hl5
  have hlen2 : 2 < (l.set 5 (S "1")).length := by rw [List.length_set]; exact hl2
  by_cases hsh1 : sh = S "1"
  · subst hsh1
    simp only [revApply, h2, pyInt?_pyFormatD, h5, hset5, h4b, h12b, ho, revDelta]
    simp
    exact setIdx?_pos _ 2 _ hlen2
  · by_cases hsh2 : sh = S "2"
    · subst hsh2
      simp only [revApply, h2, pyInt?_pyFormatD, h5, hset5, h4b, h12b, ho, revDelta]
      simp only [if_neg hsh1]
      simp
      rw [show n + -d = n - d from by ring]
      exact setIdx?_pos _ 2 _ hlen2
    · simp only [revApply, h2, pyInt?_pyFormatD, h5, hset5, h4b, h12b, ho, revDelta,
        hsh1, hsh2, ite_false]
      simp
      exact setIdx?_pos _ 2 _ hlen2

theorem revApply_leave (l : List Str) (n d : Int) (b sh o : Str)
    (h2 : l.get? 2 = some (pyFormatD 10 n))
    (h5 : l.get? 5 = some b)
    (hb : ¬ b = S "0")
    (h4 : l.get? 4 = some sh)
    (h12 : l.get? 12 = some o)
    (ho : pyInt? o = some d) :
    revApply l = some ((l.set 5 (S "0")).set 2 (pyFormatD 10 (n - revDelta sh d))) := by
  have hl5 : 5 < l.length := (List.get?_eq_some.mp h5).1
  have hl2 : 2 < l.length := (List.get?_eq_some.mp h2).1
  have h4b : (l.set 5 (S "0")).get? 4 = some sh := by
    rw [List.get?_set_ne _ _ (by omega)]
    exact h4
  have h12b : (l.set 5 (S "0")).get? 12 = some o := by
    rw [List.get?_set_ne _ _ (by omega)]
    exact h12
  have hset5 := setIdx?_pos l 5 (S "0") hl5
  have hlen2 : 2 < (l.set 5 (S "0")).length := by rw [List.length_set]; exact hl2
  by_cases hsh1 : sh = S "1"
  · subst hsh1
    simp only [revApply, h2, pyInt?_pyFormatD, h5, hb, ite_false, hset5, h4b, h12b,
      ho, revDelta]
    simp
    exact setIdx?_pos _ 2 _ hlen2
  · by_cases hsh2 : sh = S "2"
    · subst hsh2
      simp only [revApply, h2, pyInt?_pyFormatD, h5, hb, ite_false, hset5, h4b,
        h12b, ho, revDelta]
      simp only [if_neg hsh1]
      simp
      exact setIdx?_pos _ 2 _ hlen2
    · simp only [revApply, h2, pyInt?_pyFormatD, h5, hb, ite_false, hset5, h4b,
        h12b, ho, revDelta, hsh1, hsh2]
      simp
      exact setIdx?_pos _ 2 _ hlen2

/-- Claim C4: for every channel record (with a canonically formatted
`{:010d}` raw frequency field, a reverse bit that is `'0'` or `'1'`, and an
offset field that parses as an integer), applying the `rev` computation of
`run_job` twice in succession returns the raw frequency field and the
reverse bit — indeed the whole record — to their original values: entering
reverse adds the offset when shift is `'1'` (`+`) and subtracts it when
shift is `'2'` (`-`), and leaving reverse undoes exactly that arithmetic. -/
theorem c4_rev_involutive (l : List Str) (n d : Int) (b sh o : Str)
    (h2 : l.get? 2 = some (pyFormatD 10 n))
    (h5 : l.get? 5 = some b)
    (hb : b = S "0" ∨ b = S "1")
    (h4 : l.get? 4 = some sh)
    (h12 : l.get? 12 = some o)
    (ho : pyInt? o = some d) :
    (revApply l).bind revApply = some l := by
  have hl2 : 2 < l.length := (List.get?_eq_some.mp h2).1
  have hl5 : 5 < l.length := (List.get?_eq_some.mp h5).1
  rcases hb with rfl | rfl
  · rw [revApply_enter l n d sh o h2 h5 h4 h12 ho]
    rw [Option.some_bind]
    have hlen : ∀ v w : Str, ((l.set 5 v).set 2 w).length = l.length := by
      intro v w
      simp
    have hr2 : ((l.set 5 (S "1")).set 2
        (pyFormatD 10 (n + revDelta sh d))).get? 2 =
        some (pyFormatD 10 (n + revDelta sh d)) := by
      apply List.get?_set_eq_of_lt
      simp [hl2]
    have hr5 : ((l.set 5 (S "1")).set 2
        (pyFormatD 10 (n + revDelta sh d))).get? 5 = some (S "1") := by
      rw [List.get?_set_ne _ _ (by omega)]
      apply List.get?_set_eq_of_lt
      exact hl5
    have hr4 : ((l.set 5 (S "1")).set 2
        (pyFormatD 10 (n + revDelta sh d))).get? 4 = some sh := by
      rw [List.get?_set_ne _ _ (by omega), List.get?_set_ne _ _ (by omega)]
      exact h4
    have hr12 : ((l.set 5 (S "1")).set 2
        (pyFormatD 10 (n + revDelta sh d))).get? 12 = some o := by
      rw [List.get?_set_ne _ _ (by omega), List.get?_set_ne _ _ (by omega)]
      exact h12
    rw [revApply_leave _ (n + revDelta sh d) d (S "1") sh o hr2 hr5 (by decide)
      hr4 hr12 ho]
    rw [add_sub_cancel_right]
    rw [List.set_comm _ _ _ (by omega : (2 : Nat) ≠ 5), List.set_set,
      List.set_set, set_of_get? l 5 (S "0") h5, set_of_get? l 2 _ h2]
  · rw [revApply_leave l n d (S "1") sh o h2 h5 (by decide) h4 h12 ho]
    rw [Option.some_bind]
    have hr2 : ((l.set 5 (S "0")).set 2
        (pyFormatD 10 (n - revDelta sh d))).get? 2 =
        some (pyFormatD 10 (n - revDelta sh d)) := by
      apply List.get?_set_eq_of_lt
      simp [hl2]
    have hr5 : ((l.set 5 (S "0")).set 2
        (pyFormatD 10 (n - revDelta sh d))).get? 5 = some (S "0") := by
      rw [List.get?_set_ne _ _ (by omega)]
      apply List.get?_set_eq_of_lt
      exact hl5
    have hr4 : ((l.set 5 (S "0")).set 2
        (pyFormatD 10 (n - revDelta sh d))).get? 4 = some sh := by
      rw [List.get?_set_ne _ _ (by omega), List.get?_set_ne _ _ (by omega)]
      exact h4
    have hr12 : ((l.set 5 (S "0")).set 2
        (pyFormatD 10 (n - revDelta sh d))).get? 12 = some o := by
      rw [List.get?_set_ne _ _ (by omega), List.get?_set_ne _ _ (by omega)]
      exact h12
    rw [revApply_enter _ (n - revDelta sh d) d sh o hr2 hr5 hr4 hr12 ho]
    rw [sub_add_cancel]
    rw [List.set_comm _ _ _ (by omega : (2 : Nat) ≠ 5), List.set_set,
      List.set_set, set_of_get? l 5 (S "1") h5, set_of_get? l 2 _ h2]

/-- Concrete side-A channel record for the C4 witness: VFO record at
146.940 MHz, shift `'2'` (minus), offset 600 kHz, reverse off. -/
def c4Record : List Str :=
  [S "FO", S "0", S "0146940000", S "0", S "2", S "0", S "0", S "0", S "0",
   S "08", S "08", S "000", S "00600000", S "0"]

/-- Witness for `c4_rev_involutive` on a concrete channel record. -/
theorem c4_rev_involutive_witness :
    (revApply c4Record).bind revApply = some c4Record :=
  c4_rev_involutive c4Record 146940000 600000 (S "0") (S "2") (S "00600000")
    (by decide) (by decide) (Or.inl rfl) (by decide) (by decide) (by decide)

/-! ### Claim C3: band clamping of `up`/`down` in VFO mode -/

/-- Side-A VFO record whose step code is `'1'` (6.25 kHz). -/
def c3Record : List Str :=
  [S "FO", S "0", S "0146520000", S "1", S "0", S "0", S "0", S "0", S "0",
   S "08", S "08", S "000", S "00000000", S "0"]

/-- Radio oracle for the C3 counterexample. -/
def c3Radio : Radio := fun c =>
  if c = S "VM 0" then [S "VM", S "0", S "0"]
  else if c = S "FO 0" then c3Record
  else []

/-- Claim C3 counterexample: an `up` job on side A in VFO mode with the
step field `'1'` (6.25 kHz, in range either way) neither sends an FO
command with the stepped frequency nor puts an error message on the queue:
`int('6.25')` raises ValueError and `run_job` dies with an exception after
only the two fetch queries. -/
theorem c3_counterexample :
    run_job_updown c3Radio initState false (S "A") =
      ⟨JOutcome.exn, [S "VM 0", S "FO 0"], []⟩ := by
  decide

/-- Claim C3 (amended): for every up or down job on a side in VFO mode
whose step code maps to an integer kHz value (codes 0,3,5,6,7,8,9,A — for
the fractional codes 1, 2, 4 the job instead aborts with a ValueError and
sends nothing, see the counterexample), the frequency sent in the outgoing
FO command equals the fetched frequency plus (up) or minus (down) one step
unit and the command is sent only when that frequency lies within the
side's band limits; when the stepped frequency would fall outside those
limits, no FO command is sent at all and an ERROR message is put on the
message queue. -/
theorem c3_updown_band_clamp (radio : Radio) (st : RadioState) (isDown : Bool)
    (side : Str) (l log : List Str) (s2 s3 ss : Str) (f0 k f1 : Int) (mn mx : ℚ)
    (l4 : List Str)
    (hgal : get_arg_list radio side = (GalRes.ok l, log))
    (h0 : l.get? 0 = some (S "FO"))
    (h2 : l.get? 2 = some s2) (hf : pyInt? s2 = some f0)
    (h3 : l.get? 3 = some s3) (hs : STEP_map s3 = some ss)
    (hk : pyInt? ss = some k)
    (hlen : 13 ≤ l.length)
    (hmn : FREQUENCY_LIMITS_min side = some mn)
    (hmx : FREQUENCY_LIMITS_max side = some mx)
    (hf1 : f1 = f0 + (if isDown then -(k * 1000) else k * 1000))
    (hl4 : l4 = (((l.set 2 (pyFormatD 10 f1)).set 4
        (frequency_shifts f1).1).set 5 (S "0")).set 12 (frequency_shifts f1).2) :
    (mn * 1000000 ≤ (f1 : ℚ) ∧ (f1 : ℚ) ≤ mx * 1000000 →
      run_job_updown radio st isDown side =
        (if radio (S "FO" ++ ' ' :: joinComma l4.tail) = []
         then ⟨JOutcome.failed, log ++ [S "FO" ++ ' ' :: joinComma l4.tail], []⟩
         else ⟨JOutcome.done, log ++ [S "FO" ++ ' ' :: joinComma l4.tail], []⟩)) ∧
    (¬(mn * 1000000 ≤ (f1 : ℚ) ∧ (f1 : ℚ) ≤ mx * 1000000) →
      run_job_updown radio st isDown side = ⟨JOutcome.done, log, [S "ERROR"]⟩) := by
  cases l with
  | nil => simp at h0
  | cons a rest =>
    have ha : a = S "FO" := by
      simpa using h0
    subst ha
    subst hf1
    have hlen2 : 2 < (S "FO" :: rest).length := by omega
    have hlen4 : 4 < ((S "FO" :: rest).set 2
        (pyFormatD 10 (f0 + (if isDown then -(k * 1000) else k * 1000)))).length := by
      rw [List.length_set]
      omega
    have hlen5 : 5 < (((S "FO" :: rest).set 2
        (pyFormatD 10 (f0 + (if isDown then -(k * 1000) else k * 1000)))).set 4
        (frequency_shifts (f0 + (if isDown then -(k * 1000) else k * 1000))).1).length := by
      rw [List.length_set, List.length_set]
      omega
    have hlen12 : 12 < ((((S "FO" :: rest).set 2
        (pyFormatD 10 (f0 + (if isDown then -(k * 1000) else k * 1000)))).set 4
        (frequency_shifts (f0 + (if isDown then -(k * 1000) else k * 1000))).1).set 5
        (S "0")).length := by
      rw [List.length_set, List.length_set, List.length_set]
      omega
    have hNfalse : ((S "FO" : Str) = S "N") = False := by decide
    have hFOtrue : ((S "FO" : Str) = S "FO") = True := by decide
    constructor
    · intro hin
      simp only [run_job_updown, hgal, List.get?_cons_zero, hNfalse, hFOtrue,
        if_false, if_true, ite_true, ite_false]
      simp only [h2, hf, h3, hs, hk, hmn, hmx]
      rw [if_pos hin]
      simp only [setIdx?_pos _ _ _ hlen2, setIdx?_pos _ _ _ hlen4,
        setIdx?_pos _ _ _ hlen5, setIdx?_pos _ _ _ hlen12]
      subst hl4
      cases rest with
      | nil => simp at hlen
      | cons b rest2 =>
        simp only [List.set, List.tail_cons]
    · intro hout
      simp only [run_job_updown, hgal, List.get?_cons_zero, hNfalse, hFOtrue,
        if_false, if_true, ite_true, ite_false]
      simp only [h2, hf, h3, hs, hk, hmn, hmx]
      rw [if_neg hout]

/-- Side-A VFO record at 146.520 MHz with the integer step code `'0'`
(5 kHz) for the C3 witness. -/
def c3wRecord : List Str :=
  [S "FO", S "0", S "0146520000", S "0", S "0", S "0", S "0", S "0", S "0",
   S "08", S "08", S "000", S "00000000", S "0"]

/-- Radio oracle for the C3 witness: fetches succeed, and the stepped FO
command is acknowledged. -/
def c3wRadio : Radio := fun c =>
  if c = S "VM 0" then [S "VM", S "0", S "0"]
  else if c = S "FO 0" then c3wRecord
  else if c = S "FO 0,0146525000,0,0,0,0,0,0,08,08,000,00000000,0" then [S "FO"]
  else []

/-- Witness for `c3_updown_band_clamp`: an in-range 5 kHz up-step on side A
sends exactly one FO command carrying the fetched frequency plus one step. -/
theorem c3_updown_band_clamp_witness :
    run_job_updown c3wRadio initState false (S "A") =
      ⟨JOutcome.done, [S "VM 0", S "FO 0",
        S "FO 0,0146525000,0,0,0,0,0,0,08,08,000,00000000,0"], []⟩ := by
  have h := (c3_updown_band_clamp c3wRadio initState false (S "A") c3wRecord
      [S "VM 0", S "FO 0"] (S "0146520000") (S "0") (S "5") 146520000 5 146525000
      118 524
      ((((c3wRecord.set 2 (pyFormatD 10 146525000)).set 4
          (frequency_shifts 146525000).1).set 5 (S "0")).set 12
          (frequency_shifts 146525000).2)
      (by decide) (by decide) (by decide) (by decide) (by decide) (by decide)
      (by decide) (by decide) rfl rfl (by decide) rfl).1
      (by norm_num)
  rw [h]
  decide

/-! ### Claim C5: tone-type change to DCS -/

/-- Side-A VFO record with the CTCSS bit set (field 7) and a non-default
DCS frequency code `'023'` in field 11. -/
def c5Record : List Str :=
  [S "FO", S "0", S "0146520000", S "0", S "0", S "0", S "0", S "1", S "0",
   S "08", S "08", S "023", S "00000000", S "0"]

/-- Radio oracle for the C5 evaluation. -/
def c5Radio : Radio := fun c =>
  if c = S "VM 0" then [S "VM", S "0", S "0"]
  else if c = S "FO 0" then c5Record
  else if c = S "FO 0,0146520000,0,0,0,0,0,1,08,08,023,00000000,0" then [S "FO"]
  else []

/-- Claim C5 evaluated at the failing input: the tone job
`('tone','A','8')` (switch to DCS) on a record whose current type is CTCSS
clears the Tone and CTCSS bits and sets the DCS bit, but the outgoing FO
command carries the DCS frequency field unchanged (`'023'`), NOT reset to
the table's first entry `'000'`: the frequency-field write in the source is
guarded by `job[0] == 'tone_frequency'` and never fires for a `tone` job,
contradicting the comment directly above it (`cat710.py:772-779`). -/
theorem c5_tone_dcs_freq_not_reset :
    run_job_mut c5Radio none (MutJob.tone (S "A") (S "8")) =
      ⟨JOutcome.done, [S "VM 0", S "FO 0",
        S "FO 0,0146520000,0,0,0,0,0,1,08,08,023,00000000,0"], []⟩ ∧
    (S "FO 0,0146520000,0,0,0,0,0,1,08,08,023,00000000,0" : Str) ≠
      S "FO 0,0146520000,0,0,0,0,0,1,08,08,000,00000000,0" := by
  constructor
  · decide
  · decide

/-! ### Claim C6: `up`/`down` in Memory mode -/

/-- State whose side A currently holds CTRL. -/
def c6State : RadioState :=
  { initState with A := { initState.A with ctrl := some (S "CTRL") } }

/-- Radio oracle for the C6 counterexample: side A is in Memory mode on
channel 005; the raw `UP` command is acknowledged. -/
def c6Radio : Radio := fun c =>
  if c = S "VM 0" then [S "VM", S "0", S "1"]
  else if c = S "MR 0" then [S "MR", S "0", S "005"]
  else if c = S "ME 005" then
    [S "ME", S "005", S "0146520000", S "0", S "0", S "0", S "0", S "0", S "0",
     S "08", S "08", S "000", S "00000000", S "0"]
  else if c = S "UP" then [S "UP"]
  else []

/-- Claim C6 counterexample: an `up` job on side A in Memory mode sends the
radio's raw `UP` command and nothing else after the fetch — no memory
channel index is incremented or clamped to [0, 999], no memory is
re-fetched by number (no `MR 0,006` command is sent), and no error message
is queued. -/
theorem c6_counterexample :
    run_job_updown c6Radio c6State false (S "A") =
      ⟨JOutcome.done, [S "VM 0", S "MR 0", S "ME 005", S "UP"], []⟩ ∧
    S "MR 0,006" ∉ [S "VM 0", S "MR 0", S "ME 005", S "UP"] := by
  constructor
  · decide
  · decide

/-- Claim C6 (amended): for every up or down job on a side in Memory mode,
`run_job` does not step the memory index itself: it sends the radio's raw
`UP` (or `DW`) command so that the radio steps its own memory channel,
temporarily moving CTRL to that side first (and restoring it afterwards)
when the side does not hold CTRL; no [0, 999] clamping, no re-fetch by
memory number and no error message happen in `run_job`. -/
theorem c6_me_updown_raw (radio : Radio) (st : RadioState) (isDown : Bool)
    (side : Str) (l log : List Str)
    (hgal : get_arg_list radio side = (GalRes.ok l, log))
    (h0 : l.get? 0 = some (S "ME"))
    (hside : side = S "A" ∨ side = S "B") :
    ((if side = S "A" then st.A else st.B).ctrl = some (S "CTRL") →
      run_job_updown radio st isDown side =
        (if radio (if isDown then S "DW" else S "UP") = []
         then ⟨JOutcome.failed, log ++ [if isDown then S "DW" else S "UP"], []⟩
         else ⟨JOutcome.done, log ++ [if isDown then S "DW" else S "UP"], []⟩)) ∧
    (¬ (if side = S "A" then st.A else st.B).ctrl = some (S "CTRL") →
      run_job_updown radio st isDown side =
        (if radio (S "BC " ++ (if side = S "A" then S "0" else S "1") ++ S ","
            ++ natToDigits (if st.A.ptt = some (S "PTT") then 0 else 1)) = []
         then ⟨JOutcome.failed, log ++ [S "BC " ++
            (if side = S "A" then S "0" else S "1") ++ S "," ++
            natToDigits (if st.A.ptt = some (S "PTT") then 0 else 1)], []⟩
         else if radio (if isDown then S "DW" else S "UP") = []
         then ⟨JOutcome.failed, log ++ [S "BC " ++
            (if side = S "A" then S "0" else S "1") ++ S "," ++
            natToDigits (if st.A.ptt = some (S "PTT") then 0 else 1),
            if isDown then S "DW" else S "UP"], []⟩
         else if radio (S "BC " ++
            natToDigits (if st.A.ctrl = some (S "CTRL") then 0 else 1) ++ S ","
            ++ natToDigits (if st.A.ptt = some (S "PTT") then 0 else 1)) = []
         then ⟨JOutcome.failed, log ++ [S "BC " ++
            (if side = S "A" then S "0" else S "1") ++ S "," ++
            natToDigits (if st.A.ptt = some (S "PTT") then 0 else 1),
            if isDown then S "DW" else S "UP",
            S "BC " ++ natToDigits (if st.A.ctrl = some (S "CTRL") then 0 else 1)
              ++ S "," ++ natToDigits (if st.A.ptt = some (S "PTT") then 0 else 1)],
            []⟩
         else ⟨JOutcome.done, log ++ [S "BC " ++
            (if side = S "A" then S "0" else S "1") ++ S "," ++
            natToDigits (if st.A.ptt = some (S "PTT") then 0 else 1),
            if isDown then S "DW" else S "UP",
            S "BC " ++ natToDigits (if st.A.ctrl = some (S "CTRL") then 0 else 1)
              ++ S "," ++ natToDigits (if st.A.ptt = some (S "PTT") then 0 else 1)],
            []⟩)) := by
  have hMEN : ((S "ME" : Str) = S "N") = False := by decide
  have hMEFO : ((S "ME" : Str) = S "FO") = False := by decide
  have hMEME : ((S "ME" : Str) = S "ME") = True := by decide
  rcases hside with rfl | rfl
  · have hAA : ((S "A" : Str) = S "A") = True := by decide
    have hinv : SIDE_inv (S "A") = some (S "0") := by decide
    constructor
    · intro hctrl
      simp only [hAA, if_true, ite_true] at hctrl
      simp only [run_job_updown, hgal, h0, hMEN, hMEFO, hMEME, hAA, if_false,
        if_true, ite_true, ite_false, hinv]
      rw [if_pos hctrl]
    · intro hctrl
      simp only [hAA, if_true, ite_true] at hctrl
      simp only [run_job_updown, hgal, h0, hMEN, hMEFO, hMEME, hAA, if_false,
        if_true, ite_true, ite_false, hinv]
      rw [if_neg hctrl]
  · have hBA : ((S "B" : Str) = S "A") = False := by decide
    have hBB : ((S "B" : Str) = S "B") = True := by decide
    have hinv : SIDE_inv (S "B") = some (S "1") := by decide
    constructor
    · intro hctrl
      simp only [hBA, hBB, if_false, if_true, ite_true, ite_false] at hctrl
      simp only [run_job_updown, hgal, h0, hMEN, hMEFO, hMEME, hBA, hBB, if_false,
        if_true, ite_true, ite_false, hinv]
      rw [if_pos hctrl]
    · intro hctrl
      simp only [hBA, hBB, if_false, if_true, ite_true, ite_false] at hctrl
      simp only [run_job_updown, hgal, h0, hMEN, hMEFO, hMEME, hBA, hBB, if_false,
        if_true, ite_true, ite_false, hinv]
      rw [if_neg hctrl]

/-- Radio oracle for the C6 witness (Memory mode, `DW` acknowledged). -/
def c6wRadio : Radio := fun c =>
  if c = S "VM 0" then [S "VM", S "0", S "1"]
  else if c = S "MR 0" then [S "MR", S "0", S "012"]
  else if c = S "ME 012" then
    [S "ME", S "012", S "0147000000", S "0", S "0", S "0", S "0", S "0", S "0",
     S "08", S "08", S "000", S "00000000", S "0"]
  else if c = S "DW" then [S "DW"]
  else []

/-- Witness for `c6_me_updown_raw` on a concrete radio and state. -/
theorem c6_me_updown_raw_witness :
    run_job_updown c6wRadio c6State true (S "A") =
      ⟨JOutcome.done, [S "VM 0", S "MR 0", S "ME 012", S "DW"], []⟩ := by
  have h := (c6_me_updown_raw c6wRadio c6State true (S "A")
      [S "ME", S "012", S "0147000000", S "0", S "0", S "0", S "0", S "0",
       S "0", S "08", S "08", S "000", S "00000000", S "0"]
      [S "VM 0", S "MR 0", S "ME 012"]
      (by decide) (by decide) (Or.inl rfl)).1 (by decide)
  rw [h]
  decide

/-! ### Claim C9: the frequency job at 146.520 MHz -/

theorem pyTrunc_146_52 : pyTrunc ((146.52 : ℚ) * 1000000) = 146520000 := by
  have h : (146.52 : ℚ) * 1000000 = ((146520000 : ℚ)) := by norm_num
  rw [h, pyTrunc]
  norm_num

/-- Claim C9 (amended): the job `('frequency','A',146.520)` applied to any
side-A VFO channel record sends one FO command that differs from the
fetched record in exactly three fields: the frequency field 2 (now
`'0146520000'`), and the shift and offset fields 4 and 12, which are
recomputed from the new frequency by `frequency_shifts` (for 146.520 MHz:
simplex `'0'` with offset `'00000000'`); every other field (step, reverse,
the three tone bits, the tone/CTCSS/DCS frequency fields, modulation) is
sent back exactly as fetched. -/
theorem c9_frequency_cmd (radio : Radio) (ask : Option Bool) (l log : List Str)
    (hgal : get_arg_list radio (S "A") = (GalRes.ok l, log))
    (h0 : l.get? 0 = some (S "FO"))
    (hlen : 13 ≤ l.length) :
    run_job_mut radio ask (MutJob.frequency (S "A") (146.52 : ℚ)) =
      (if radio (S "FO" ++ ' ' :: joinComma
          (((l.set 2 (S "0146520000")).set 4 (S "0")).set 12 (S "00000000")).tail)
          = []
       then ⟨JOutcome.failed, log ++ [S "FO" ++ ' ' :: joinComma
          (((l.set 2 (S "0146520000")).set 4 (S "0")).set 12 (S "00000000")).tail],
          []⟩
       else ⟨JOutcome.done, log ++ [S "FO" ++ ' ' :: joinComma
          (((l.set 2 (S "0146520000")).set 4 (S "0")).set 12 (S "00000000")).tail],
          []⟩) ∧
    (∀ i, i ≠ 2 → i ≠ 4 → i ≠ 12 →
      (((l.set 2 (S "0146520000")).set 4 (S "0")).set 12 (S "00000000")).get? i
        = l.get? i) := by
  have hfmt : pyFormatD 10 (pyTrunc ((146.52 : ℚ) * 1000000)) = S "0146520000" := by
    rw [pyTrunc_146_52]
    decide
  have hsh1 : (frequency_shifts (pyTrunc ((146.52 : ℚ) * 1000000))).1 = S "0" := by
    rw [pyTrunc_146_52]
    decide
  have hsh2 : (frequency_shifts (pyTrunc ((146.52 : ℚ) * 1000000))).2
      = S "00000000" := by
    rw [pyTrunc_146_52]
    decide
  constructor
  · cases l with
    | nil => simp at h0
    | cons a rest =>
      have ha : a = S "FO" := by simpa using h0
      subst ha
      have hNfalse : ((S "FO" : Str) = S "N") = False := by decide
      have hjn : (!(decide ((S "FO" : Str) = S "CC" ∨ (S "FO" : Str) = S "FO"
          ∨ (S "FO" : Str) = S "ME"))) = false := by decide
      have hjnT : (!(decide ((S "FO" : Str) = S "CC" ∨ True ∨ False))) = false := by
        decide
      have hMEf : ((S "FO" : Str) = S "ME") = False := by decide
      have hlen2 : 2 < (S "FO" :: rest).length := by omega
      have hlen4 : 4 < ((S "FO" :: rest).set 2 (S "0146520000")).length := by
        rw [List.length_set]
        omega
      have hlen12 : 12 < (((S "FO" :: rest).set 2 (S "0146520000")).set 4
          (S "0")).length := by
        rw [List.length_set, List.length_set]
        omega
      simp only [run_job_mut, MutJob.side, hgal, List.get?_cons_zero, hNfalse,
        if_false, ite_false, hjn, hjnT, Bool.false_eq_true, freqApply, hfmt, hsh1,
        hsh2, setIdx?_pos _ _ _ hlen2, setIdx?_pos _ _ _ hlen4,
        setIdx?_pos _ _ _ hlen12, Bool.or_self, hMEf, ite_true, if_true]
      cases rest with
      | nil => simp at hlen
      | cons b rest2 =>
        simp only [List.set, List.get?_cons_zero, hMEf, hjn, hjnT, if_false,
          ite_false, Bool.or_self, Bool.false_eq_true, List.tail_cons,
          List.append_nil]
  · intro i hi2 hi4 hi12
    rw [List.get?_set_ne _ _ (fun h => hi12 h.symm),
      List.get?_set_ne _ _ (fun h => hi4 h.symm),
      List.get?_set_ne _ _ (fun h => hi2 h.symm)]

/-- Side-A repeater record (shift `'1'`, offset 600 kHz) fetched for the C9
counterexample. -/
def c9Record : List Str :=
  [S "FO", S "0", S "0147000000", S "0", S "1", S "0", S "0", S "0", S "0",
   S "08", S "08", S "000", S "00600000", S "0"]

/-- Radio oracle for the C9 counterexample. -/
def c9Radio : Radio := fun c =>
  if c = S "VM 0" then [S "VM", S "0", S "0"]
  else if c = S "FO 0" then c9Record
  else if c = S "FO 0,0146520000,0,0,0,0,0,0,08,08,000,00000000,0" then [S "FO"]
  else []

/-- Claim C9 counterexample: on a fetched side-A VFO record with shift
`'1'` and offset `'00600000'`, the job `('frequency','A',146.520)` sends an
FO command whose shift field (4) and offset field (12) are `'0'` and
`'00000000'` — recomputed from the new frequency — and thus NOT sent back
exactly as fetched, contrary to the claim that only the frequency field
changes. -/
theorem c9_counterexample :
    run_job_mut c9Radio none (MutJob.frequency (S "A") (146.52 : ℚ)) =
      ⟨JOutcome.done, [S "VM 0", S "FO 0",
        S "FO 0,0146520000,0,0,0,0,0,0,08,08,000,00000000,0"], []⟩ ∧
    (S "FO 0,0146520000,0,0,0,0,0,0,08,08,000,00000000,0" : Str) ≠
      S "FO 0,0146520000,0,1,0,0,0,0,08,08,000,00600000,0" := by
  have hfmt : pyFormatD 10 (pyTrunc ((146.52 : ℚ) * 1000000)) = S "0146520000" := by
    rw [pyTrunc_146_52]
    decide
  have hsh1 : (frequency_shifts (pyTrunc ((146.52 : ℚ) * 1000000))).1 = S "0" := by
    rw [pyTrunc_146_52]
    decide
  have hsh2 : (frequency_shifts (pyTrunc ((146.52 : ℚ) * 1000000))).2
      = S "00000000" := by
    rw [pyTrunc_146_52]
    decide
  constructor
  · simp only [run_job_mut, MutJob.side, freqApply, hfmt, hsh1, hsh2]
    decide
  · decide

/-- Side-A simplex VFO record fetched for the C9 witness. -/
def c9wRecord : List Str :=
  [S "FO", S "0", S "0147420000", S "0", S "0", S "0", S "0", S "0", S "0",
   S "08", S "08", S "000", S "00000000", S "0"]

/-- Radio oracle for the C9 witness. -/
def c9wRadio : Radio := fun c =>
  if c = S "VM 0" then [S "VM", S "0", S "0"]
  else if c = S "FO 0" then c9wRecord
  else if c = S "FO 0,0146520000,0,0,0,0,0,0,08,08,000,00000000,0" then [S "FO"]
  else []

/-- Witness for `c9_frequency_cmd` on a concrete record and radio. -/
theorem c9_frequency_cmd_witness :
    run_job_mut c9wRadio none (MutJob.frequency (S "A") (146.52 : ℚ)) =
      ⟨JOutcome.done, [S "VM 0", S "FO 0",
        S "FO 0,0146520000,0,0,0,0,0,0,08,08,000,00000000,0"], []⟩ := by
  have h := (c9_frequency_cmd c9wRadio none c9wRecord [S "VM 0", S "FO 0"]
      (by decide) (by decide) (by decide)).1
  rw [h]
  decide

/-! ### RPC facade (`xmlrpc710.py`) -/

/-- Jobs that the RPC `set_frequency` procedure can enqueue. -/
inductive RpcJob
  | mode (side : Str) (v : Str)
  | frequency (side : Str) (mhz : ℚ)
deriving DecidableEq, Repr

/-- Procedure `set_frequency` (`xmlrpc710.py:135-148`): read the cached
data side, validate `frequency / 1000000` against that side's band limits
(`within_frequency_limits`), and if within limits enqueue a switch-to-VFO
job first when the side's cached mode is not `'VFO'`, then the frequency
job; in every non-raising case the procedure returns the empty string.
`none` models the uncaught exception when the cached `data_side` is not a
valid side key (the limits lookup raises `KeyError`). -/
def set_frequency (st : RadioState) (frequency : Int) :
    Option (List RpcJob × Str) :=
  match st.data_side with
  | none => none
  | some ds =>
    let freq_f : ℚ := (frequency : ℚ) / 1000000
    match within_frequency_limits ds freq_f with
    | none => none
    | some b =>
      if b then
        match (if ds = S "A" then some st.A
               else if ds = S "B" then some st.B else none) with
        | none => none
        | some sd =>
          if sd.mode ≠ some (S "VFO") then
            some ([RpcJob.mode ds (S "0"), RpcJob.frequency ds freq_f], S "")
          else
            some ([RpcJob.frequency ds freq_f], S "")
      else some ([], S "")

/-- Procedure `get_power` (`xmlrpc710.py:176-186`): the variable `power` is
read from the data side's `'frequency'` entry — not the `'power'` entry —
and compared against `'L'` and `'M'`. -/
def get_power (st : RadioState) : Option Nat :=
  match st.data_side with
  | none => none
  | some ds =>
    match (if ds = S "A" then some st.A
           else if ds = S "B" then some st.B else none) with
    | none => none
    | some sd =>
      let power := sd.frequency
      some (if power = some (S "L") then 2
            else if power = some (S "M") then 20
            else 100)

/-- Claim C7: `set_frequency` validates the target frequency against the
data side's band limits before anything is enqueued; an out-of-range
frequency enqueues no job and returns the normal empty-string result with
no error surfaced, while an in-range frequency first enqueues a
switch-to-VFO mode job when the side is not already in VFO mode and then
enqueues the frequency job. -/
theorem c7_set_frequency_validation (st : RadioState) (frequency : Int)
    (ds : Str)
    (hds : st.data_side = some ds)
    (hside : ds = S "A" ∨ ds = S "B") :
    (within_frequency_limits ds ((frequency : ℚ) / 1000000) = some false →
      set_frequency st frequency = some ([], S "")) ∧
    (within_frequency_limits ds ((frequency : ℚ) / 1000000) = some true →
      set_frequency st frequency = some
        ((if (if ds = S "A" then st.A else st.B).mode ≠ some (S "VFO")
          then [RpcJob.mode ds (S "0"),
                RpcJob.frequency ds ((frequency : ℚ) / 1000000)]
          else [RpcJob.frequency ds ((frequency : ℚ) / 1000000)]), S "")) := by
  constructor
  · intro hw
    simp only [set_frequency, hds, hw, if_false, ite_false, Bool.false_eq_true]
  · intro hw
    rcases hside with rfl | rfl
    · have hAA : ((S "A" : Str) = S "A") = True := by decide
      simp only [set_frequency, hds, hw, if_true, ite_true, hAA]
      split <;> rfl
    · have hBA : ((S "B" : Str) = S "A") = False := by decide
      have hBB : ((S "B" : Str) = S "B") = True := by decide
      simp only [set_frequency, hds, hw, if_true, ite_true, if_false, ite_false,
        hBA, hBB]
      split <;> rfl

/-- State for the C7 witness: data side B, currently in Memory mode. -/
def c7State : RadioState :=
  { initState with
    data_side := some (S "B")
    B := { initState.B with mode := some (S "MR") } }

/-- Membership of 431.5 MHz in side B's limits, evaluated. -/
theorem c7_within_B :
    within_frequency_limits (S "B") ((431500000 : Int) / 1000000 : ℚ)
      = some true := by
  have hBA : ((S "B" : Str) = S "A") = False := by decide
  have hBB : ((S "B" : Str) = S "B") = True := by decide
  simp only [within_frequency_limits, FREQUENCY_LIMITS_min, FREQUENCY_LIMITS_max,
    hBA, hBB, if_false, if_true, ite_true, ite_false]
  norm_num

/-- Witness for `c7_set_frequency_validation`: data side B in Memory mode,
in-range 431.5 MHz request enqueues the mode switch then the frequency. -/
theorem c7_set_frequency_validation_witness :
    set_frequency c7State 431500000 = some
      ([RpcJob.mode (S "B") (S "0"),
        RpcJob.frequency (S "B") ((431500000 : ℚ) / 1000000)], S "") := by
  have h := (c7_set_frequency_validation c7State 431500000 (S "B") rfl
      (Or.inr rfl)).2 (by
        have := c7_within_B
        simpa using this)
  rw [h]
  have hmode : ((if (S "B" : Str) = S "A" then c7State.A else c7State.B).mode
      ≠ some (S "VFO")) := by decide
  rw [if_pos hmode]
  norm_num

/-! ### Claim C10: `rig.get_power` reads the frequency field -/

theorem padZeros_len (w : Nat) (ds : Str) : ds.length ≤ (padZeros w ds).length := by
  simp only [padZeros, List.length_append, List.length_replicate]
  omega

theorem pyFormat3Aux_three_le (m : Nat) : 3 ≤ (pyFormat3Aux m).length := by
  have h1 : 1 ≤ (natToDigits (roundHalfEven m / 1000)).length :=
    List.length_pos.mpr (natToDigits_ne_nil _)
  have h3 : 1 ≤ (natToDigits (roundHalfEven m % 1000)).length :=
    List.length_pos.mpr (natToDigits_ne_nil _)
  have h4 := padZeros_len 3 (natToDigits (roundHalfEven m % 1000))
  simp only [pyFormat3Aux, List.length_append, List.length_cons]
  omega

/-- A formatted `"{:.3f}"` frequency string has at least five characters,
so it is never a single-character string such as `'L'` or `'M'`. -/
theorem pyFormat3_ne_single (n : Int) (c : Char) : pyFormat3 n ≠ [c] := by
  intro h
  have hlen := congrArg List.length h
  by_cases hn : n < 0
  · simp only [pyFormat3, hn, ite_true, List.length_cons, List.length_nil] at hlen
    have := pyFormat3Aux_three_le n.natAbs
    omega
  · simp only [pyFormat3, hn, ite_false, List.length_cons, List.length_nil] at hlen
    have := pyFormat3Aux_three_le n.toNat
    omega

/-- Claim C10: for every state dictionary whose data side's frequency field
was produced by the refresh formatter (`"{:.3f}".format(...)`), the RPC
procedure `rig.get_power` returns 100 regardless of the radio's actual
power setting: it compares the data side's `'frequency'` entry — a string
shaped like `'146.520'` that never equals `'L'` or `'M'` — instead of the
`'power'` entry, so the `'L'` and `'M'` branches are unreachable. -/
theorem c10_get_power_always_100 (st : RadioState) (ds : Str) (sd : SideState)
    (n : Int)
    (hds : st.data_side = some ds)
    (hsd : (if ds = S "A" then some st.A
            else if ds = S "B" then some st.B else none) = some sd)
    (hfreq : sd.frequency = some (pyFormat3 n)) :
    get_power st = some 100 := by
  have hL : (some (pyFormat3 n) = some (S "L")) = False :=
    eq_false (fun hh => pyFormat3_ne_single n 'L' (Option.some.inj hh))
  have hM : (some (pyFormat3 n) = some (S "M")) = False :=
    eq_false (fun hh => pyFormat3_ne_single n 'M' (Option.some.inj hh))
  simp only [get_power, hds, hsd, hfreq, hL, hM, if_false, ite_false]

/-- State for the C10 witness: data side A with a refreshed frequency field
of 146.520 MHz (and power Low — which `get_power` never looks at). -/
def c10State : RadioState :=
  { initState with
    data_side := some (S "A")
    A := { initState.A with
            frequency := some (pyFormat3 146520000)
            power := some (S "L") } }

/-- Witness for `c10_get_power_always_100`. -/
theorem c10_get_power_always_100_witness : get_power c10State = some 100 :=
  c10_get_power_always_100 c10State (S "A") c10State.A 146520000 rfl (by decide) rfl

end Kenwood
